import Mathlib

/-!
# set-dynamic-resolution

A shallow embedding of `src/set-dynamic-resolution.c` and proofs about the
command-line contract of its `main`.

The program talks to three external collaborators: the dynamic loader
(`dlopen`, `dlsym`, `dlerror`), the display service
(`CGGetOnlineDisplayList`) and the SkyLight entry points it resolves
(`supports`, `isEnabled`, `setEnabled`).  A run is modelled as a pure function
from the argument vector and a `World` (what the collaborators answer) to an
`Outcome`: the ordered trace of every external call and every write to the two
output streams, and the exit status.

The SkyLight queries are external and may be stateful, so each of them is
modelled as a function of the whole trace up to the call and of the display
identifier.  That covers every deterministic behaviour, in particular answers
that change after the mutator has been called.
-/

namespace SetDynamicResolution

/-- The type `CGDirectDisplayID` of the source, an unsigned 32-bit handle, kept
as a natural number.  No arithmetic is done on it. -/
abbrev CGDirectDisplayID := Nat

/-- One observable step of a run: a call to an external function, with the
answer it gave where the program reads one, or a write to an output stream. -/
inductive Event where
  | dlopen (path : String)
  | dlerror
  | dlsym (symbol : String)
  | getOnlineDisplayList (maxDisplays : Nat)
  | supports (id : CGDirectDisplayID) (ret : Bool)
  | isEnabled (id : CGDirectDisplayID) (ret : Bool)
  | setEnabled (id : CGDirectDisplayID) (value : Bool)
  | stdout (text : String)
  | stderr (text : String)
  deriving DecidableEq, Repr

/-- An external boolean query on a display.  Its answer may depend on everything
that happened before the call. -/
abbrev Query := List Event → CGDirectDisplayID → Bool

/-- What `dlsym` finds in the loaded library: `none` is a NULL pointer.  The
mutator returns nothing, so only its presence is recorded; its effect on the
system is visible to later queries through the trace. -/
structure SkyLight where
  supports : Option Query
  isEnabled : Option Query
  setEnabled : Bool

/-- The answers of the environment: `lib = none` when `dlopen` returns NULL,
the text `dlerror` gives, and the displays that are online. -/
structure World where
  lib : Option SkyLight
  dlerrorText : String
  online : List CGDirectDisplayID

/-- The result of a run of `main`: the trace and the exit status. -/
structure Outcome where
  trace : List Event
  status : Nat
  deriving DecidableEq, Repr

/-! ## External functions -/

/-- The comparison of `strcmp` on the characters of two strings: the first
position where they differ decides, and a string that ends first is smaller. -/
def strcmpChars : List Char → List Char → Int
  | [], [] => 0
  | [], _ :: _ => -1
  | _ :: _, [] => 1
  | a :: as, b :: bs =>
    if a = b then strcmpChars as bs else if a.toNat < b.toNat then -1 else 1

/-- The C library `strcmp`, up to the size of a non-zero result: negative, zero
or positive as the first string is smaller than, equal to or greater than the
second. -/
def strcmp (a b : String) : Int :=
  strcmpChars a.data b.data

/-- The display service call `CGGetOnlineDisplayList(maxDisplays, buf, &count)`:
it fills at most `maxDisplays` slots, in the order of the service. -/
def CGGetOnlineDisplayList (maxDisplays : Nat) (online : List CGDirectDisplayID) :
    List CGDirectDisplayID :=
  online.take maxDisplays

/-! ## The argument scan (lines 28-34) -/

/-- The body of the argument loop on one argument: the pair is `(enable, query)`. -/
def scanArg (st : Bool × Bool) (arg : String) : Bool × Bool :=
  let enable := if strcmp arg "--off" = 0 then false else st.1
  let query := if strcmp arg "--query" = 0 then true else st.2
  (enable, query)

/-- The loop `for (int i = 1; i < argc; i++)` starting from `enable = true`,
`query = false`; it returns `(enable, query)`. -/
def parseArgs (argv : List String) : Bool × Bool :=
  (argv.drop 1).foldl scanArg (true, false)

/-! ## Output formatting -/

/-- The `"YES"` / `"NO"` choice of the status line. -/
def yesNo (b : Bool) : String := if b then "YES" else "NO"

/-- The `"ON"` / `"OFF"` choice of the confirmation line. -/
def onOff (b : Bool) : String := if b then "ON" else "OFF"

/-- The line printed for one display in query mode (line 64). -/
def statusLine (id : CGDirectDisplayID) (sup cur : Bool) : String :=
  "display " ++ toString id ++ ": supportsDynamicGeometry=" ++ yesNo sup ++
    "  isEnabled=" ++ yesNo cur ++ "\n"

/-- The line printed after the mutator was called on a display (line 71). -/
def confirmLine (id : CGDirectDisplayID) (enable : Bool) : String :=
  "display " ++ toString id ++ ": dynamic geometry -> " ++ onOff enable ++ "\n"

/-- The path handed to `dlopen`. -/
def skyLightPath : String :=
  "/System/Library/PrivateFrameworks/SkyLight.framework/SkyLight"

/-- The diagnostic of a failed `dlopen` (line 40). -/
def loadError (msg : String) : String :=
  "ERROR: Could not load SkyLight framework: " ++ msg ++ "\n"

/-- The diagnostic of a missing required symbol (line 49). -/
def symbolError : String :=
  "ERROR: SkyLight symbols not found (macOS version mismatch?)\n"

/-- The warning printed when nothing was acted upon (line 78). -/
def noDisplayWarning : String :=
  "WARNING: No displays found that support dynamic geometry\n"

/-! ## The display loop (lines 57-75) -/

/-- One iteration of the display loop on display `id`, from the trace so far and
the value of `acted`. -/
def displayStep (supports : Query) (isEnabled : Option Query) (enable query : Bool)
    (id : CGDirectDisplayID) (st : List Event × Nat) : List Event × Nat :=
  let sup := supports st.1 id
  let tr1 := st.1 ++ [Event.supports id sup]
  let cur := match isEnabled with
    | some f => f tr1 id
    | none => false
  let tr2 := match isEnabled with
    | some _ => tr1 ++ [Event.isEnabled id cur]
    | none => tr1
  if query then
    (tr2 ++ [Event.stdout (statusLine id sup cur)], st.2)
  else if sup then
    (tr2 ++ [Event.setEnabled id enable, Event.stdout (confirmLine id enable)], st.2 + 1)
  else
    (tr2, st.2)

/-- The loop `for (uint32_t i = 0; i < count; i++)` over the enumerated displays. -/
def displayLoop (supports : Query) (isEnabled : Option Query) (enable query : Bool) :
    List CGDirectDisplayID → List Event × Nat → List Event × Nat
  | [], st => st
  | id :: rest, st =>
    displayLoop supports isEnabled enable query rest
      (displayStep supports isEnabled enable query id st)

/-! ## main -/

/-- The trace of a run once the three symbols were looked up, when the library
loaded: `dlopen` and the three `dlsym` calls. -/
def resolved : List Event :=
  [Event.dlopen skyLightPath,
   Event.dlsym "SLSDisplaySupportsDynamicGeometry",
   Event.dlsym "SLSDisplayIsDynamicGeometryEnabled",
   Event.dlsym "SLSDisplaySetDynamicGeometryEnabled"]

/-- The state of the run when the display loop is left: trace and `acted`. -/
def loopExit (supports : Query) (isEnabled : Option Query) (enable query : Bool)
    (online : List CGDirectDisplayID) : List Event × Nat :=
  displayLoop supports isEnabled enable query (CGGetOnlineDisplayList 16 online)
    (resolved ++ [Event.getOnlineDisplayList 16], 0)

/-- The function `main` of the source. -/
def main (argv : List String) (w : World) : Outcome :=
  let mode := parseArgs argv
  let enable := mode.1
  let query := mode.2
  match w.lib with
  | none =>
    ⟨[Event.dlopen skyLightPath, Event.dlerror, Event.stderr (loadError w.dlerrorText)], 1⟩
  | some lib =>
    match lib.supports, lib.setEnabled with
    | some supports, true =>
      let fin := loopExit supports lib.isEnabled enable query w.online
      if !query && fin.2 == 0 then
        ⟨fin.1 ++ [Event.stderr noDisplayWarning], 1⟩
      else
        ⟨fin.1, 0⟩
    | _, _ => ⟨resolved ++ [Event.stderr symbolError], 1⟩

/-! ## Projections of a trace -/

/-- The calls to the mutator, in order: display and target value. -/
def mutatorCalls (tr : List Event) : List (CGDirectDisplayID × Bool) :=
  tr.filterMap fun e => match e with
    | Event.setEnabled id v => some (id, v)
    | _ => none

/-- The calls to the supports query, in order: display and answer. -/
def supportsCalls (tr : List Event) : List (CGDirectDisplayID × Bool) :=
  tr.filterMap fun e => match e with
    | Event.supports id r => some (id, r)
    | _ => none

/-- The calls to the is-enabled query, in order: display and answer. -/
def isEnabledCalls (tr : List Event) : List (CGDirectDisplayID × Bool) :=
  tr.filterMap fun e => match e with
    | Event.isEnabled id r => some (id, r)
    | _ => none

/-- The writes to standard output, in order. -/
def stdoutOf (tr : List Event) : List String :=
  tr.filterMap fun e => match e with
    | Event.stdout s => some s
    | _ => none

/-- The writes to standard error, in order. -/
def stderrOf (tr : List Event) : List String :=
  tr.filterMap fun e => match e with
    | Event.stderr s => some s
    | _ => none

/-- The number of display enumerations in a trace. -/
def enumerations (tr : List Event) : Nat :=
  (tr.filter fun e => match e with
    | Event.getOnlineDisplayList _ => true
    | _ => false).length

/-! ## Definitions used to state the properties -/

/-- The value of `cur` in the iteration on display `id` entered with trace `tr`. -/
def curOf (supports : Query) (isEnabled : Option Query) (tr : List Event)
    (id : CGDirectDisplayID) : Bool :=
  match isEnabled with
  | some f => f (tr ++ [Event.supports id (supports tr id)]) id
  | none => false

/-- The displays the supports query answered `true` for, in call order. -/
def supported (tr : List Event) : List CGDirectDisplayID :=
  ((supportsCalls tr).filter fun e => e.2).map Prod.fst

/-- The values of `cur` read by the iterations recorded in a trace, one per
display: the answers of the is-enabled query when the symbol is present, `false`
each time when it is absent. -/
def curValues (isEnabled : Option Query) (tr : List Event) : List Bool :=
  match isEnabled with
  | some _ => (isEnabledCalls tr).map Prod.snd
  | none => (supportsCalls tr).map fun _ => false

/-- The relation between calls, output and counter kept by the loop in enable
and disable mode. -/
def ActInv (enable : Bool) (st : List Event × Nat) : Prop :=
  mutatorCalls st.1 = (supported st.1).map (fun id => (id, enable)) ∧
  stdoutOf st.1 = (supported st.1).map (fun id => confirmLine id enable) ∧
  st.2 = (supported st.1).length

/-- The relation between calls, output and counter kept by the loop in query
mode. -/
def QueryInv (isEnabled : Option Query) (st : List Event × Nat) : Prop :=
  mutatorCalls st.1 = [] ∧
  stdoutOf st.1 =
    List.zipWith (fun s c => statusLine s.1 s.2 c) (supportsCalls st.1)
      (curValues isEnabled st.1) ∧
  (supportsCalls st.1).length = (curValues isEnabled st.1).length ∧
  st.2 = 0

instance (enable : Bool) (st : List Event × Nat) : Decidable (ActInv enable st) := by
  unfold ActInv
  exact inferInstance

instance (isEnabled : Option Query) (st : List Event × Nat) :
    Decidable (QueryInv isEnabled st) := by
  unfold QueryInv
  exact inferInstance

/-- A trace with the calls to the is-enabled query taken out. -/
def withoutIsEnabled (tr : List Event) : List Event :=
  tr.filter fun e => match e with
    | Event.isEnabled _ _ => false
    | _ => true

/-! ## Worlds used as concrete inputs -/

/-- The supports query of the scenario: display 1 supports dynamic geometry, no
other display does. -/
def scenarioSupports : Query := fun _ id => decide (id = 1)

/-- The library of the scenario: all three symbols present, nothing enabled. -/
def scenarioLib : SkyLight := ⟨some scenarioSupports, some fun _ _ => false, true⟩

/-- The scenario of the specification: displays 1 and 2 online, display 1
supported and not enabled, display 2 unsupported and not enabled. -/
def scenarioWorld : World := ⟨some scenarioLib, "", [1, 2]⟩

/-- A world in which `dlopen` fails. -/
def noLibraryWorld : World := ⟨none, "image not found", [1, 2]⟩

/-- A library of an incompatible system: the mutator symbol is missing. -/
def noMutatorLib : SkyLight := ⟨some scenarioSupports, some fun _ _ => false, false⟩

/-- The scenario on a system whose library lacks the mutator symbol. -/
def noMutatorWorld : World := ⟨some noMutatorLib, "", [1, 2]⟩

/-- The library of the scenario with no display online. -/
def noDisplaysWorld : World := ⟨some scenarioLib, "", []⟩

/-- Displays 2 and 3 online, none of which supports dynamic geometry. -/
def unsupportedWorld : World := ⟨some scenarioLib, "", [2, 3]⟩

/-- The supports query and the displays of the scenario, without the is-enabled
symbol. -/
def noIsEnabledLib : SkyLight := ⟨some scenarioSupports, none, true⟩

/-- The scenario on a system whose library lacks the is-enabled symbol. -/
def noIsEnabledWorld : World := ⟨some noIsEnabledLib, "", [1, 2]⟩

/-- The scenario with every display reporting dynamic geometry as enabled. -/
def alreadyOnLib : SkyLight := ⟨some scenarioSupports, some fun _ _ => true, true⟩

/-- The scenario on a system where the capability is already on. -/
def alreadyOnWorld : World := ⟨some alreadyOnLib, "", [1, 2]⟩

/-- The displays of the scenario enumerated in the other order, 2 before 1, on
a system where the capability is already on. -/
def alreadyOnReversedWorld : World := ⟨some alreadyOnLib, "", [2, 1]⟩

/-- A supports query that answers `true` for every display. -/
def allSupports : Query := fun _ _ => true

/-- A library in which every display supports dynamic geometry and none has it
enabled. -/
def allSupportedLib : SkyLight := ⟨some allSupports, some fun _ _ => false, true⟩

/-- Displays 1, 2 and 3 online, all of them supporting dynamic geometry. -/
def threeSupportedWorld : World := ⟨some allSupportedLib, "", [1, 2, 3]⟩

/-- The world `w` with a library that has supports query `supports`, an
is-enabled query answering `false` every time, and the mutator. -/
def withFalseIsEnabled (w : World) (supports : Query) : World :=
  ⟨some ⟨some supports, some fun _ _ => false, true⟩, w.dlerrorText, w.online⟩

/-! ## The argument scan -/

theorem strcmpChars_eq_zero (a b : List Char) : strcmpChars a b = 0 ↔ a = b := by
  induction a generalizing b with
  | nil => cases b <;> simp [strcmpChars]
  | cons x xs ih =>
    cases b with
    | nil => simp [strcmpChars]
    | cons y ys =>
      by_cases hxy : x = y
      · simp [strcmpChars, hxy, ih]
      · by_cases hlt : x.toNat < y.toNat <;> simp [strcmpChars, hxy, hlt]

theorem strcmp_eq_zero (a b : String) : strcmp a b = 0 ↔ a = b := by
  unfold strcmp
  rw [strcmpChars_eq_zero]
  constructor
  · intro h
    exact String.ext h
  · intro h
    rw [h]

theorem scanArg_eq (st : Bool × Bool) (arg : String) :
    scanArg st arg = (st.1 && decide (arg ≠ "--off"), st.2 || decide (arg = "--query")) := by
  unfold scanArg
  simp only [strcmp_eq_zero]
  by_cases h1 : arg = "--off" <;> by_cases h2 : arg = "--query" <;> simp [h1, h2]

theorem foldl_scanArg (args : List String) (st : Bool × Bool) :
    args.foldl scanArg st =
      (st.1 && decide ("--off" ∉ args), st.2 || decide ("--query" ∈ args)) := by
  induction args generalizing st with
  | nil => simp
  | cons a rest ih =>
    rw [List.foldl_cons, ih, scanArg_eq]
    by_cases h1 : a = "--off" <;> by_cases h2 : a = "--query" <;>
      simp [h1, h2, Bool.and_assoc, Bool.or_assoc, eq_comm]

theorem parseArgs_eq (argv : List String) :
    parseArgs argv =
      (decide ("--off" ∉ argv.drop 1), decide ("--query" ∈ argv.drop 1)) := by
  unfold parseArgs
  rw [foldl_scanArg]
  simp

theorem parseArgs_query (argv : List String) :
    (parseArgs argv).2 = true ↔ "--query" ∈ argv.drop 1 := by
  rw [parseArgs_eq]; simp

theorem parseArgs_enable (argv : List String) :
    (parseArgs argv).1 = false ↔ "--off" ∈ argv.drop 1 := by
  rw [parseArgs_eq]; simp

/-! ## Projections and concatenation -/

theorem mutatorCalls_append (a b : List Event) :
    mutatorCalls (a ++ b) = mutatorCalls a ++ mutatorCalls b := by
  simp [mutatorCalls, List.filterMap_append]

theorem supportsCalls_append (a b : List Event) :
    supportsCalls (a ++ b) = supportsCalls a ++ supportsCalls b := by
  simp [supportsCalls, List.filterMap_append]

theorem isEnabledCalls_append (a b : List Event) :
    isEnabledCalls (a ++ b) = isEnabledCalls a ++ isEnabledCalls b := by
  simp [isEnabledCalls, List.filterMap_append]

theorem stdoutOf_append (a b : List Event) :
    stdoutOf (a ++ b) = stdoutOf a ++ stdoutOf b := by
  simp [stdoutOf, List.filterMap_append]

theorem stderrOf_append (a b : List Event) :
    stderrOf (a ++ b) = stderrOf a ++ stderrOf b := by
  simp [stderrOf, List.filterMap_append]

theorem enumerations_append (a b : List Event) :
    enumerations (a ++ b) = enumerations a + enumerations b := by
  simp [enumerations, List.filter_append]

/-! ## One iteration of the display loop -/

theorem displayStep_supportsCalls (supports : Query) (isEnabled : Option Query)
    (enable query : Bool) (id : CGDirectDisplayID) (st : List Event × Nat) :
    supportsCalls (displayStep supports isEnabled enable query id st).1 =
      supportsCalls st.1 ++ [(id, supports st.1 id)] := by
  unfold displayStep
  cases isEnabled <;> cases query <;> cases hs : supports st.1 id <;>
    simp [supportsCalls, List.filterMap_append, hs]

theorem displayStep_isEnabledCalls (supports : Query) (isEnabled : Option Query)
    (enable query : Bool) (id : CGDirectDisplayID) (st : List Event × Nat) :
    isEnabledCalls (displayStep supports isEnabled enable query id st).1 =
      isEnabledCalls st.1 ++
        (if isEnabled.isSome then [(id, curOf supports isEnabled st.1 id)] else []) := by
  unfold displayStep curOf
  cases isEnabled <;> cases query <;> cases hs : supports st.1 id <;>
    simp [isEnabledCalls, List.filterMap_append, hs]

theorem displayStep_mutatorCalls (supports : Query) (isEnabled : Option Query)
    (enable query : Bool) (id : CGDirectDisplayID) (st : List Event × Nat) :
    mutatorCalls (displayStep supports isEnabled enable query id st).1 =
      mutatorCalls st.1 ++
        (if query = false ∧ supports st.1 id = true then [(id, enable)] else []) := by
  unfold displayStep
  cases isEnabled <;> cases query <;> cases hs : supports st.1 id <;>
    simp [mutatorCalls, List.filterMap_append, hs]

theorem displayStep_stdoutOf (supports : Query) (isEnabled : Option Query)
    (enable query : Bool) (id : CGDirectDisplayID) (st : List Event × Nat) :
    stdoutOf (displayStep supports isEnabled enable query id st).1 =
      stdoutOf st.1 ++
        (if query = true then
          [statusLine id (supports st.1 id) (curOf supports isEnabled st.1 id)]
        else if supports st.1 id = true then [confirmLine id enable] else []) := by
  unfold displayStep curOf
  cases isEnabled <;> cases query <;> cases hs : supports st.1 id <;>
    simp [stdoutOf, List.filterMap_append, hs]

theorem displayStep_stderrOf (supports : Query) (isEnabled : Option Query)
    (enable query : Bool) (id : CGDirectDisplayID) (st : List Event × Nat) :
    stderrOf (displayStep supports isEnabled enable query id st).1 = stderrOf st.1 := by
  unfold displayStep
  cases isEnabled <;> cases query <;> cases hs : supports st.1 id <;>
    simp [stderrOf, List.filterMap_append, hs]

theorem displayStep_enumerations (supports : Query) (isEnabled : Option Query)
    (enable query : Bool) (id : CGDirectDisplayID) (st : List Event × Nat) :
    enumerations (displayStep supports isEnabled enable query id st).1 =
      enumerations st.1 := by
  unfold displayStep
  cases isEnabled <;> cases query <;> cases hs : supports st.1 id <;>
    simp [enumerations, List.filter_append, hs]

theorem displayStep_acted (supports : Query) (isEnabled : Option Query)
    (enable query : Bool) (id : CGDirectDisplayID) (st : List Event × Nat) :
    (displayStep supports isEnabled enable query id st).2 =
      st.2 + (if query = false ∧ supports st.1 id = true then 1 else 0) := by
  unfold displayStep
  cases isEnabled <;> cases query <;> cases hs : supports st.1 id <;> simp [hs]

theorem supported_append (a b : List Event) :
    supported (a ++ b) = supported a ++ supported b := by
  simp [supported, supportsCalls_append]

theorem displayStep_supported (supports : Query) (isEnabled : Option Query)
    (enable query : Bool) (id : CGDirectDisplayID) (st : List Event × Nat) :
    supported (displayStep supports isEnabled enable query id st).1 =
      supported st.1 ++ (if supports st.1 id = true then [id] else []) := by
  unfold supported
  rw [displayStep_supportsCalls]
  cases hs : supports st.1 id <;> simp [hs]

theorem displayStep_curValues (supports : Query) (isEnabled : Option Query)
    (enable query : Bool) (id : CGDirectDisplayID) (st : List Event × Nat) :
    curValues isEnabled (displayStep supports isEnabled enable query id st).1 =
      curValues isEnabled st.1 ++ [curOf supports isEnabled st.1 id] := by
  cases isEnabled with
  | none => simp [curValues, displayStep_supportsCalls, curOf]
  | some f => simp [curValues, displayStep_isEnabledCalls]

/-! ## The display loop -/

/-- A property of the loop state kept by every iteration is kept by the loop. -/
theorem displayLoop_invariant (supports : Query) (isEnabled : Option Query)
    (enable query : Bool) (P : List Event × Nat → Prop)
    (hstep : ∀ id st, P st → P (displayStep supports isEnabled enable query id st))
    (ids : List CGDirectDisplayID) (st : List Event × Nat) (h : P st) :
    P (displayLoop supports isEnabled enable query ids st) := by
  induction ids generalizing st with
  | nil => exact h
  | cons id rest ih => exact ih _ (hstep id st h)

theorem displayLoop_supportsCalls_ids (supports : Query) (isEnabled : Option Query)
    (enable query : Bool) (ids : List CGDirectDisplayID) (st : List Event × Nat) :
    (supportsCalls (displayLoop supports isEnabled enable query ids st).1).map Prod.fst =
      (supportsCalls st.1).map Prod.fst ++ ids := by
  induction ids generalizing st with
  | nil => simp [displayLoop]
  | cons id rest ih =>
    rw [displayLoop, ih, displayStep_supportsCalls]
    simp

theorem displayLoop_isEnabledCalls_ids (supports : Query) (isEnabled : Option Query)
    (enable query : Bool) (ids : List CGDirectDisplayID) (st : List Event × Nat) :
    (isEnabledCalls (displayLoop supports isEnabled enable query ids st).1).map Prod.fst =
      (isEnabledCalls st.1).map Prod.fst ++ (if isEnabled.isSome then ids else []) := by
  induction ids generalizing st with
  | nil => simp [displayLoop]
  | cons id rest ih =>
    rw [displayLoop, ih, displayStep_isEnabledCalls]
    cases isEnabled <;> simp

theorem displayLoop_stderrOf (supports : Query) (isEnabled : Option Query)
    (enable query : Bool) (ids : List CGDirectDisplayID) (st : List Event × Nat) :
    stderrOf (displayLoop supports isEnabled enable query ids st).1 = stderrOf st.1 :=
  displayLoop_invariant supports isEnabled enable query
    (fun s => stderrOf s.1 = stderrOf st.1)
    (fun id s h => (displayStep_stderrOf supports isEnabled enable query id s).trans h)
    ids st rfl

theorem displayLoop_enumerations (supports : Query) (isEnabled : Option Query)
    (enable query : Bool) (ids : List CGDirectDisplayID) (st : List Event × Nat) :
    enumerations (displayLoop supports isEnabled enable query ids st).1 =
      enumerations st.1 :=
  displayLoop_invariant supports isEnabled enable query
    (fun s => enumerations s.1 = enumerations st.1)
    (fun id s h => (displayStep_enumerations supports isEnabled enable query id s).trans h)
    ids st rfl

theorem displayStep_actInv (supports : Query) (isEnabled : Option Query)
    (enable : Bool) (id : CGDirectDisplayID) (st : List Event × Nat)
    (h : ActInv enable st) :
    ActInv enable (displayStep supports isEnabled enable false id st) := by
  obtain ⟨h1, h2, h3⟩ := h
  refine ⟨?_, ?_, ?_⟩
  · rw [displayStep_mutatorCalls, displayStep_supported, h1]
    cases hs : supports st.1 id <;> simp
  · rw [displayStep_stdoutOf, displayStep_supported, h2]
    cases hs : supports st.1 id <;> simp
  · rw [displayStep_acted, displayStep_supported, h3]
    cases hs : supports st.1 id <;> simp

theorem displayStep_queryInv (supports : Query) (isEnabled : Option Query)
    (enable : Bool) (id : CGDirectDisplayID) (st : List Event × Nat)
    (h : QueryInv isEnabled st) :
    QueryInv isEnabled (displayStep supports isEnabled enable true id st) := by
  obtain ⟨h1, h2, h3, h4⟩ := h
  refine ⟨?_, ?_, ?_, ?_⟩
  · rw [displayStep_mutatorCalls, h1]; simp
  · rw [displayStep_stdoutOf, displayStep_supportsCalls, displayStep_curValues,
      List.zipWith_append _ _ _ _ _ h3, h2]
    simp
  · rw [displayStep_supportsCalls, displayStep_curValues]
    simp [h3]
  · rw [displayStep_acted, h4]; simp

/-! ## The state at loop exit -/

theorem loopExit_actInv (supports : Query) (isEnabled : Option Query) (enable : Bool)
    (online : List CGDirectDisplayID) :
    ActInv enable (loopExit supports isEnabled enable false online) :=
  displayLoop_invariant supports isEnabled enable false (ActInv enable)
    (displayStep_actInv supports isEnabled enable) _ _
    ⟨rfl, rfl, rfl⟩

theorem loopExit_queryInv (supports : Query) (isEnabled : Option Query) (enable : Bool)
    (online : List CGDirectDisplayID) :
    QueryInv isEnabled (loopExit supports isEnabled enable true online) :=
  displayLoop_invariant supports isEnabled enable true (QueryInv isEnabled)
    (displayStep_queryInv supports isEnabled enable) _ _
    ⟨rfl, by cases isEnabled <;> rfl, by cases isEnabled <;> rfl, rfl⟩

theorem loopExit_supportsCalls_ids (supports : Query) (isEnabled : Option Query)
    (enable query : Bool) (online : List CGDirectDisplayID) :
    (supportsCalls (loopExit supports isEnabled enable query online).1).map Prod.fst =
      CGGetOnlineDisplayList 16 online := by
  unfold loopExit
  rw [displayLoop_supportsCalls_ids]
  have h : supportsCalls (resolved ++ [Event.getOnlineDisplayList 16]) = [] := by decide
  simp [h]

theorem loopExit_isEnabledCalls_ids (supports : Query) (isEnabled : Option Query)
    (enable query : Bool) (online : List CGDirectDisplayID) :
    (isEnabledCalls (loopExit supports isEnabled enable query online).1).map Prod.fst =
      if isEnabled.isSome then CGGetOnlineDisplayList 16 online else [] := by
  unfold loopExit
  rw [displayLoop_isEnabledCalls_ids]
  have h : isEnabledCalls (resolved ++ [Event.getOnlineDisplayList 16]) = [] := by decide
  simp [h]

theorem loopExit_stderrOf (supports : Query) (isEnabled : Option Query)
    (enable query : Bool) (online : List CGDirectDisplayID) :
    stderrOf (loopExit supports isEnabled enable query online).1 = [] := by
  unfold loopExit
  rw [displayLoop_stderrOf]
  decide

theorem loopExit_enumerations (supports : Query) (isEnabled : Option Query)
    (enable query : Bool) (online : List CGDirectDisplayID) :
    enumerations (loopExit supports isEnabled enable query online).1 = 1 := by
  unfold loopExit
  rw [displayLoop_enumerations]
  decide

/-! ## The three ways through main -/

theorem main_load_failed (argv : List String) (w : World) (h : w.lib = none) :
    main argv w =
      ⟨[Event.dlopen skyLightPath, Event.dlerror, Event.stderr (loadError w.dlerrorText)],
        1⟩ := by
  unfold main
  simp [h]

theorem main_symbols_missing (argv : List String) (w : World) (lib : SkyLight)
    (h : w.lib = some lib) (hm : lib.supports = none ∨ lib.setEnabled = false) :
    main argv w = ⟨resolved ++ [Event.stderr symbolError], 1⟩ := by
  unfold main
  rcases hm with hm | hm
  · simp [h, hm]
  · cases hs : lib.supports <;> simp [h, hm, hs]

theorem main_resolved (argv : List String) (w : World) (lib : SkyLight)
    (supports : Query) (h : w.lib = some lib) (hs : lib.supports = some supports)
    (hm : lib.setEnabled = true) :
    main argv w =
      if (parseArgs argv).2 = false ∧
          (loopExit supports lib.isEnabled (parseArgs argv).1 (parseArgs argv).2
            w.online).2 = 0 then
        ⟨(loopExit supports lib.isEnabled (parseArgs argv).1 (parseArgs argv).2
            w.online).1 ++ [Event.stderr noDisplayWarning], 1⟩
      else
        ⟨(loopExit supports lib.isEnabled (parseArgs argv).1 (parseArgs argv).2
            w.online).1, 0⟩ := by
  unfold main
  simp [h, hs, hm]

theorem main_query (argv : List String) (w : World) (lib : SkyLight)
    (supports : Query) (h : w.lib = some lib) (hs : lib.supports = some supports)
    (hm : lib.setEnabled = true) (hq : (parseArgs argv).2 = true) :
    main argv w =
      ⟨(loopExit supports lib.isEnabled (parseArgs argv).1 true w.online).1, 0⟩ := by
  rw [main_resolved argv w lib supports h hs hm]
  simp [hq]

theorem main_act (argv : List String) (w : World) (lib : SkyLight)
    (supports : Query) (h : w.lib = some lib) (hs : lib.supports = some supports)
    (hm : lib.setEnabled = true) (hq : (parseArgs argv).2 = false) :
    main argv w =
      if supported (loopExit supports lib.isEnabled (parseArgs argv).1 false
          w.online).1 = [] then
        ⟨(loopExit supports lib.isEnabled (parseArgs argv).1 false w.online).1 ++
          [Event.stderr noDisplayWarning], 1⟩
      else
        ⟨(loopExit supports lib.isEnabled (parseArgs argv).1 false w.online).1, 0⟩ := by
  rw [main_resolved argv w lib supports h hs hm]
  have h3 := (loopExit_actInv supports lib.isEnabled (parseArgs argv).1 w.online).2.2
  simp only [hq, h3, List.length_eq_zero, true_and]

/-! ## Queries that do not depend on the history -/

theorem displayLoop_supportsCalls_stateless (supports : Query)
    (isEnabled : Option Query) (enable query : Bool) (s : CGDirectDisplayID → Bool)
    (hs : ∀ h id, supports h id = s id) (ids : List CGDirectDisplayID)
    (st : List Event × Nat) :
    supportsCalls (displayLoop supports isEnabled enable query ids st).1 =
      supportsCalls st.1 ++ ids.map (fun id => (id, s id)) := by
  induction ids generalizing st with
  | nil => simp [displayLoop]
  | cons id rest ih =>
    rw [displayLoop, ih, displayStep_supportsCalls, hs]
    simp

theorem displayLoop_curValues_stateless (supports : Query)
    (isEnabled : Option Query) (enable query : Bool) (c : CGDirectDisplayID → Bool)
    (hc : ∀ h id, curOf supports isEnabled h id = c id) (ids : List CGDirectDisplayID)
    (st : List Event × Nat) :
    curValues isEnabled (displayLoop supports isEnabled enable query ids st).1 =
      curValues isEnabled st.1 ++ ids.map c := by
  induction ids generalizing st with
  | nil => simp [displayLoop]
  | cons id rest ih =>
    rw [displayLoop, ih, displayStep_curValues, hc]
    simp

theorem loopExit_supportsCalls_stateless (supports : Query)
    (isEnabled : Option Query) (enable query : Bool) (s : CGDirectDisplayID → Bool)
    (hs : ∀ h id, supports h id = s id) (online : List CGDirectDisplayID) :
    supportsCalls (loopExit supports isEnabled enable query online).1 =
      (CGGetOnlineDisplayList 16 online).map (fun id => (id, s id)) := by
  unfold loopExit
  rw [displayLoop_supportsCalls_stateless supports isEnabled enable query s hs]
  have h : supportsCalls (resolved ++ [Event.getOnlineDisplayList 16]) = [] := rfl
  simp [h]

theorem loopExit_supported_stateless (supports : Query)
    (isEnabled : Option Query) (enable query : Bool) (s : CGDirectDisplayID → Bool)
    (hs : ∀ h id, supports h id = s id) (online : List CGDirectDisplayID) :
    supported (loopExit supports isEnabled enable query online).1 =
      (CGGetOnlineDisplayList 16 online).filter s := by
  unfold supported
  rw [loopExit_supportsCalls_stateless supports isEnabled enable query s hs]
  generalize CGGetOnlineDisplayList 16 online = ids
  induction ids with
  | nil => rfl
  | cons id rest ih =>
    cases h : s id <;> simp [List.filter_cons, h] at ih ⊢ <;> exact ih

theorem loopExit_curValues_stateless (supports : Query)
    (isEnabled : Option Query) (enable query : Bool) (c : CGDirectDisplayID → Bool)
    (hc : ∀ h id, curOf supports isEnabled h id = c id)
    (online : List CGDirectDisplayID) :
    curValues isEnabled (loopExit supports isEnabled enable query online).1 =
      (CGGetOnlineDisplayList 16 online).map c := by
  unfold loopExit
  rw [displayLoop_curValues_stateless supports isEnabled enable query c hc]
  have h : curValues isEnabled (resolved ++ [Event.getOnlineDisplayList 16]) = [] := by
    cases isEnabled <;> rfl
  simp [h]

/-! ## Query mode does not read `enable` -/

theorem displayStep_query_enable (supports : Query) (isEnabled : Option Query)
    (e1 e2 : Bool) (id : CGDirectDisplayID) (st : List Event × Nat) :
    displayStep supports isEnabled e1 true id st =
      displayStep supports isEnabled e2 true id st := by
  simp [displayStep]

theorem displayLoop_query_enable (supports : Query) (isEnabled : Option Query)
    (e1 e2 : Bool) (ids : List CGDirectDisplayID) (st : List Event × Nat) :
    displayLoop supports isEnabled e1 true ids st =
      displayLoop supports isEnabled e2 true ids st := by
  induction ids generalizing st with
  | nil => rfl
  | cons id rest ih =>
    rw [displayLoop, displayLoop, displayStep_query_enable supports isEnabled e1 e2, ih]

theorem main_query_mode (argv1 argv2 : List String) (w : World)
    (h1 : (parseArgs argv1).2 = true) (h2 : (parseArgs argv2).2 = true) :
    main argv1 w = main argv2 w := by
  cases hl : w.lib with
  | none => rw [main_load_failed argv1 w hl, main_load_failed argv2 w hl]
  | some lib =>
    cases hs : lib.supports with
    | none =>
      rw [main_symbols_missing argv1 w lib hl (Or.inl hs),
        main_symbols_missing argv2 w lib hl (Or.inl hs)]
    | some f =>
      cases hm : lib.setEnabled with
      | false =>
        rw [main_symbols_missing argv1 w lib hl (Or.inr hm),
          main_symbols_missing argv2 w lib hl (Or.inr hm)]
      | true =>
        rw [main_query argv1 w lib f hl hs hm h1, main_query argv2 w lib f hl hs hm h2]
        unfold loopExit
        rw [displayLoop_query_enable f lib.isEnabled (parseArgs argv1).1
          (parseArgs argv2).1]

theorem main_same_mode (argv1 argv2 : List String) (w : World)
    (h : parseArgs argv1 = parseArgs argv2) : main argv1 w = main argv2 w := by
  unfold main
  rw [h]

/-! ## An absent is-enabled symbol -/

theorem withoutIsEnabled_append (a b : List Event) :
    withoutIsEnabled (a ++ b) = withoutIsEnabled a ++ withoutIsEnabled b := by
  simp [withoutIsEnabled, List.filter_append]

theorem displayStep_absent (supports : Query) (enable query : Bool)
    (hins : ∀ h id, supports h id = supports (withoutIsEnabled h) id)
    (id : CGDirectDisplayID) (st1 st2 : List Event × Nat)
    (h1 : st1.1 = withoutIsEnabled st2.1) (h2 : st1.2 = st2.2) :
    (displayStep supports none enable query id st1).1 =
        withoutIsEnabled
          (displayStep supports (some fun _ _ => false) enable query id st2).1 ∧
      (displayStep supports none enable query id st1).2 =
        (displayStep supports (some fun _ _ => false) enable query id st2).2 := by
  have hsup : supports st1.1 id = supports st2.1 id := by
    rw [h1, ← hins]
  unfold displayStep
  rw [hsup, h1, h2]
  cases query <;> cases hs : supports st2.1 id <;>
    simp [withoutIsEnabled, List.filter_append]

theorem displayLoop_absent (supports : Query) (enable query : Bool)
    (hins : ∀ h id, supports h id = supports (withoutIsEnabled h) id)
    (ids : List CGDirectDisplayID) (st1 st2 : List Event × Nat)
    (h1 : st1.1 = withoutIsEnabled st2.1) (h2 : st1.2 = st2.2) :
    (displayLoop supports none enable query ids st1).1 =
        withoutIsEnabled
          (displayLoop supports (some fun _ _ => false) enable query ids st2).1 ∧
      (displayLoop supports none enable query ids st1).2 =
        (displayLoop supports (some fun _ _ => false) enable query ids st2).2 := by
  induction ids generalizing st1 st2 with
  | nil => exact ⟨h1, h2⟩
  | cons id rest ih =>
    have hstep := displayStep_absent supports enable query hins id st1 st2 h1 h2
    exact ih _ _ hstep.1 hstep.2

theorem loopExit_absent (supports : Query) (enable query : Bool)
    (hins : ∀ h id, supports h id = supports (withoutIsEnabled h) id)
    (online : List CGDirectDisplayID) :
    (loopExit supports none enable query online).1 =
        withoutIsEnabled
          (loopExit supports (some fun _ _ => false) enable query online).1 ∧
      (loopExit supports none enable query online).2 =
        (loopExit supports (some fun _ _ => false) enable query online).2 :=
  displayLoop_absent supports enable query hins _ _ _ rfl rfl

/-! ## Enable and disable mode -/

theorem supported_eq_nil (tr : List Event) :
    supported tr = [] ↔ ∀ e ∈ supportsCalls tr, e.2 = false := by
  unfold supported
  simp [List.filter_eq_nil_iff]

theorem supported_length (tr : List Event) :
    (supported tr).length = ((supportsCalls tr).filter fun e => e.2).length := by
  simp [supported]

theorem CGGetOnlineDisplayList_length (n : Nat) (online : List CGDirectDisplayID) :
    (CGGetOnlineDisplayList n online).length ≤ n := by
  simp [CGGetOnlineDisplayList, List.length_take]

theorem main_act_trace (argv : List String) (w : World) (lib : SkyLight)
    (supports : Query) (h : w.lib = some lib) (hs : lib.supports = some supports)
    (hm : lib.setEnabled = true) (hq : (parseArgs argv).2 = false) :
    (main argv w).trace =
      (loopExit supports lib.isEnabled (parseArgs argv).1 false w.online).1 ++
        (if supported (loopExit supports lib.isEnabled (parseArgs argv).1 false
            w.online).1 = [] then [Event.stderr noDisplayWarning] else []) := by
  rw [main_act argv w lib supports h hs hm hq]
  split <;> simp

theorem main_act_status (argv : List String) (w : World) (lib : SkyLight)
    (supports : Query) (h : w.lib = some lib) (hs : lib.supports = some supports)
    (hm : lib.setEnabled = true) (hq : (parseArgs argv).2 = false) :
    (main argv w).status =
      if supported (loopExit supports lib.isEnabled (parseArgs argv).1 false
          w.online).1 = [] then 1 else 0 := by
  rw [main_act argv w lib supports h hs hm hq]
  split <;> simp

theorem main_act_supportsCalls (argv : List String) (w : World) (lib : SkyLight)
    (supports : Query) (h : w.lib = some lib) (hs : lib.supports = some supports)
    (hm : lib.setEnabled = true) (hq : (parseArgs argv).2 = false) :
    supportsCalls (main argv w).trace =
      supportsCalls (loopExit supports lib.isEnabled (parseArgs argv).1 false
        w.online).1 := by
  rw [main_act_trace argv w lib supports h hs hm hq, supportsCalls_append]
  split <;> simp [supportsCalls]

theorem main_act_supported (argv : List String) (w : World) (lib : SkyLight)
    (supports : Query) (h : w.lib = some lib) (hs : lib.supports = some supports)
    (hm : lib.setEnabled = true) (hq : (parseArgs argv).2 = false) :
    supported (main argv w).trace =
      supported (loopExit supports lib.isEnabled (parseArgs argv).1 false
        w.online).1 := by
  unfold supported
  rw [main_act_supportsCalls argv w lib supports h hs hm hq]

theorem main_act_mutatorCalls (argv : List String) (w : World) (lib : SkyLight)
    (supports : Query) (h : w.lib = some lib) (hs : lib.supports = some supports)
    (hm : lib.setEnabled = true) (hq : (parseArgs argv).2 = false) :
    mutatorCalls (main argv w).trace =
      mutatorCalls (loopExit supports lib.isEnabled (parseArgs argv).1 false
        w.online).1 := by
  rw [main_act_trace argv w lib supports h hs hm hq, mutatorCalls_append]
  split <;> simp [mutatorCalls]

theorem main_act_stdoutOf (argv : List String) (w : World) (lib : SkyLight)
    (supports : Query) (h : w.lib = some lib) (hs : lib.supports = some supports)
    (hm : lib.setEnabled = true) (hq : (parseArgs argv).2 = false) :
    stdoutOf (main argv w).trace =
      stdoutOf (loopExit supports lib.isEnabled (parseArgs argv).1 false
        w.online).1 := by
  rw [main_act_trace argv w lib supports h hs hm hq, stdoutOf_append]
  split <;> simp [stdoutOf]

theorem main_act_stderrOf (argv : List String) (w : World) (lib : SkyLight)
    (supports : Query) (h : w.lib = some lib) (hs : lib.supports = some supports)
    (hm : lib.setEnabled = true) (hq : (parseArgs argv).2 = false) :
    stderrOf (main argv w).trace =
      if supported (loopExit supports lib.isEnabled (parseArgs argv).1 false
          w.online).1 = [] then [noDisplayWarning] else [] := by
  rw [main_act_trace argv w lib supports h hs hm hq, stderrOf_append, loopExit_stderrOf]
  split <;> simp [stderrOf]

theorem parseArgs_not_query (argv : List String) (hq : "--query" ∉ argv.drop 1) :
    (parseArgs argv).2 = false := by
  rw [parseArgs_eq]
  exact decide_eq_false hq

theorem parseArgs_fst (argv : List String) :
    (parseArgs argv).1 = decide ("--off" ∉ argv.drop 1) := by
  rw [parseArgs_eq]

theorem confirmLine_on (id : CGDirectDisplayID) :
    confirmLine id true = "display " ++ toString id ++ ": dynamic geometry -> ON\n" := by
  simp only [confirmLine, onOff, if_true, String.append_assoc]
  rfl

theorem confirmLine_off (id : CGDirectDisplayID) :
    confirmLine id false = "display " ++ toString id ++ ": dynamic geometry -> OFF\n" := by
  simp only [confirmLine, onOff, Bool.false_eq_true, if_false, String.append_assoc]
  rfl

/-! ## What a run shows, in terms of the answers it read -/

theorem main_act_calls_eq (argv : List String) (w : World) (lib : SkyLight)
    (supports : Query) (h : w.lib = some lib) (hs : lib.supports = some supports)
    (hm : lib.setEnabled = true) (hq : (parseArgs argv).2 = false) :
    mutatorCalls (main argv w).trace =
      (supported (main argv w).trace).map (fun id => (id, (parseArgs argv).1)) := by
  rw [main_act_mutatorCalls argv w lib supports h hs hm hq,
    main_act_supported argv w lib supports h hs hm hq]
  exact (loopExit_actInv supports lib.isEnabled (parseArgs argv).1 w.online).1

theorem main_act_stdout_eq (argv : List String) (w : World) (lib : SkyLight)
    (supports : Query) (h : w.lib = some lib) (hs : lib.supports = some supports)
    (hm : lib.setEnabled = true) (hq : (parseArgs argv).2 = false) :
    stdoutOf (main argv w).trace =
      (supported (main argv w).trace).map
        (fun id => confirmLine id (parseArgs argv).1) := by
  rw [main_act_stdoutOf argv w lib supports h hs hm hq,
    main_act_supported argv w lib supports h hs hm hq]
  exact (loopExit_actInv supports lib.isEnabled (parseArgs argv).1 w.online).2.1

theorem main_act_stderr_eq (argv : List String) (w : World) (lib : SkyLight)
    (supports : Query) (h : w.lib = some lib) (hs : lib.supports = some supports)
    (hm : lib.setEnabled = true) (hq : (parseArgs argv).2 = false) :
    stderrOf (main argv w).trace =
      if supported (main argv w).trace = [] then [noDisplayWarning] else [] := by
  rw [main_act_stderrOf argv w lib supports h hs hm hq,
    main_act_supported argv w lib supports h hs hm hq]

theorem main_act_status_eq (argv : List String) (w : World) (lib : SkyLight)
    (supports : Query) (h : w.lib = some lib) (hs : lib.supports = some supports)
    (hm : lib.setEnabled = true) (hq : (parseArgs argv).2 = false) :
    (main argv w).status = if supported (main argv w).trace = [] then 1 else 0 := by
  rw [main_act_status argv w lib supports h hs hm hq,
    main_act_supported argv w lib supports h hs hm hq]

/-- In enable and disable mode the calls to the mutator, both output streams and
the exit status are determined by the answers of the supports query. -/
theorem main_act_determined (argv : List String) (w1 w2 : World) (lib1 lib2 : SkyLight)
    (f1 f2 : Query) (hl1 : w1.lib = some lib1) (hs1 : lib1.supports = some f1)
    (hm1 : lib1.setEnabled = true) (hl2 : w2.lib = some lib2)
    (hs2 : lib2.supports = some f2) (hm2 : lib2.setEnabled = true)
    (hq : (parseArgs argv).2 = false)
    (hsame : supportsCalls (main argv w1).trace = supportsCalls (main argv w2).trace) :
    mutatorCalls (main argv w1).trace = mutatorCalls (main argv w2).trace ∧
    stdoutOf (main argv w1).trace = stdoutOf (main argv w2).trace ∧
    stderrOf (main argv w1).trace = stderrOf (main argv w2).trace ∧
    (main argv w1).status = (main argv w2).status := by
  have hsupp : supported (main argv w1).trace = supported (main argv w2).trace := by
    unfold supported
    rw [hsame]
  refine ⟨?_, ?_, ?_, ?_⟩
  · rw [main_act_calls_eq argv w1 lib1 f1 hl1 hs1 hm1 hq,
      main_act_calls_eq argv w2 lib2 f2 hl2 hs2 hm2 hq, hsupp]
  · rw [main_act_stdout_eq argv w1 lib1 f1 hl1 hs1 hm1 hq,
      main_act_stdout_eq argv w2 lib2 f2 hl2 hs2 hm2 hq, hsupp]
  · rw [main_act_stderr_eq argv w1 lib1 f1 hl1 hs1 hm1 hq,
      main_act_stderr_eq argv w2 lib2 f2 hl2 hs2 hm2 hq, hsupp]
  · rw [main_act_status_eq argv w1 lib1 f1 hl1 hs1 hm1 hq,
      main_act_status_eq argv w2 lib2 f2 hl2 hs2 hm2 hq, hsupp]

theorem main_query_stdout_eq (argv : List String) (w : World) (lib : SkyLight)
    (supports : Query) (h : w.lib = some lib) (hs : lib.supports = some supports)
    (hm : lib.setEnabled = true) (hq : (parseArgs argv).2 = true) :
    stdoutOf (main argv w).trace =
      List.zipWith (fun s c => statusLine s.1 s.2 c) (supportsCalls (main argv w).trace)
        (curValues lib.isEnabled (main argv w).trace) := by
  rw [main_query argv w lib supports h hs hm hq]
  exact (loopExit_queryInv supports lib.isEnabled (parseArgs argv).1 w.online).2.1

theorem main_query_lengths (argv : List String) (w : World) (lib : SkyLight)
    (supports : Query) (h : w.lib = some lib) (hs : lib.supports = some supports)
    (hm : lib.setEnabled = true) (hq : (parseArgs argv).2 = true) :
    (supportsCalls (main argv w).trace).length =
      (curValues lib.isEnabled (main argv w).trace).length := by
  rw [main_query argv w lib supports h hs hm hq]
  exact (loopExit_queryInv supports lib.isEnabled (parseArgs argv).1 w.online).2.2.1

theorem zipWith_status_map (s c : CGDirectDisplayID → Bool)
    (ids : List CGDirectDisplayID) :
    List.zipWith (fun (e : CGDirectDisplayID × Bool) b => statusLine e.1 e.2 b)
        (ids.map fun id => (id, s id)) (ids.map c) =
      ids.map fun id => statusLine id (s id) (c id) := by
  induction ids with
  | nil => rfl
  | cons id rest ih => simp [ih]

theorem zipWith_status_false (calls : List (CGDirectDisplayID × Bool)) :
    List.zipWith (fun (e : CGDirectDisplayID × Bool) b => statusLine e.1 e.2 b) calls
        (calls.map fun _ => false) =
      calls.map fun e => statusLine e.1 e.2 false := by
  induction calls with
  | nil => rfl
  | cons e rest ih => rw [List.map_cons, List.map_cons, List.zipWith_cons_cons, ih]

theorem curOf_eq_of_table (supports : Query) (isEnabled : Option Query)
    (c : CGDirectDisplayID → Bool)
    (hc : ∀ f, isEnabled = some f → ∀ h id, f h id = c id)
    (hc0 : isEnabled = none → ∀ id, c id = false) :
    ∀ h id, curOf supports isEnabled h id = c id := by
  intro h id
  cases hie : isEnabled with
  | none => simp [curOf, hc0 hie id]
  | some f => simp [curOf, hc f hie]

theorem statusLine_text (id : CGDirectDisplayID) (sup cur : Bool) :
    statusLine id sup cur =
      "display " ++ toString id ++ ": supportsDynamicGeometry=" ++
        (if sup then "YES" else "NO") ++ "  isEnabled=" ++
        (if cur then "YES" else "NO") ++ "\n" := rfl

theorem main_query_stdout_false (argv : List String) (w : World) (lib : SkyLight)
    (supports : Query) (h : w.lib = some lib) (hs : lib.supports = some supports)
    (hm : lib.setEnabled = true) (hq : (parseArgs argv).2 = true)
    (hc : ∀ h id, curOf supports lib.isEnabled h id = false) :
    stdoutOf (main argv w).trace =
      (supportsCalls (main argv w).trace).map fun e => statusLine e.1 e.2 false := by
  rw [main_query_stdout_eq argv w lib supports h hs hm hq]
  have hcur : curValues lib.isEnabled (main argv w).trace =
      (supportsCalls (main argv w).trace).map fun _ => false := by
    rw [main_query argv w lib supports h hs hm hq]
    rw [loopExit_curValues_stateless supports lib.isEnabled _ _ (fun _ => false) hc,
      ← loopExit_supportsCalls_ids supports lib.isEnabled (parseArgs argv).1 true w.online,
      List.map_map]
    rfl
  rw [hcur, zipWith_status_false]

theorem main_absent_erases (argv : List String) (w : World) (lib : SkyLight)
    (supports : Query) (hl : w.lib = some lib) (hs : lib.supports = some supports)
    (hm : lib.setEnabled = true) (hie : lib.isEnabled = none)
    (hins : ∀ h id, supports h id = supports (withoutIsEnabled h) id) :
    (main argv w).trace =
        withoutIsEnabled (main argv (withFalseIsEnabled w supports)).trace ∧
      (main argv w).status = (main argv (withFalseIsEnabled w supports)).status := by
  have h1 := main_resolved argv w lib supports hl hs hm
  have h2 := main_resolved argv (withFalseIsEnabled w supports)
    ⟨some supports, some fun _ _ => false, true⟩ supports rfl rfl rfl
  have hloop := loopExit_absent supports (parseArgs argv).1 (parseArgs argv).2 hins w.online
  rw [hie] at h1
  rw [h1, h2, hloop.2]
  have hon : (withFalseIsEnabled w supports).online = w.online := rfl
  rw [hon]
  split
  · refine ⟨?_, rfl⟩
    simp only []
    rw [withoutIsEnabled_append, hloop.1]
    rfl
  · exact ⟨hloop.1, rfl⟩

/-! ## Properties of the command-line contract -/

/-- C1: when an argument after the program name is `--query`, a run of `main`
makes no call to the set-enabled mutator, whatever the other arguments, the
library, the online displays and the answers of the queries are. -/
theorem query_never_calls_mutator (argv : List String) (w : World)
    (h : "--query" ∈ argv.drop 1) :
    mutatorCalls (main argv w).trace = [] := by
  have hq := (parseArgs_query argv).2 h
  cases hl : w.lib with
  | none => rw [main_load_failed argv w hl]; rfl
  | some lib =>
    cases hs : lib.supports with
    | none => rw [main_symbols_missing argv w lib hl (Or.inl hs)]; rfl
    | some f =>
      cases hm : lib.setEnabled with
      | false => rw [main_symbols_missing argv w lib hl (Or.inr hm)]; rfl
      | true =>
        rw [main_query argv w lib f hl hs hm hq]
        exact (loopExit_queryInv f lib.isEnabled (parseArgs argv).1 w.online).1

theorem query_never_calls_mutator_witness :
    "--query" ∈ ["set-dynamic-resolution", "--off", "--query"].drop 1 ∧
      mutatorCalls
        (main ["set-dynamic-resolution", "--off", "--query"] scenarioWorld).trace = [] ∧
      supportsCalls
        (main ["set-dynamic-resolution", "--off", "--query"] scenarioWorld).trace =
        [(1, true), (2, false)] :=
  ⟨by decide,
    query_never_calls_mutator ["set-dynamic-resolution", "--off", "--query"] scenarioWorld
      (by decide),
    by decide⟩

/-- C2: when the library and both required symbols resolve and no argument is
`--query`, the supports query is asked once per enumerated display, in
enumeration order, and the mutator calls are exactly the displays it answered
`true` for, in that order, one call each, with the target value `true` when
`--off` is absent and `false` when it is present; so there are as many mutator
calls as supported displays.  For a supports query given by a fixed table `s`
the calls are the enumerated displays filtered by `s`. -/
theorem mutator_calls_exact (argv : List String) (w : World) (lib : SkyLight)
    (supports : Query) (hl : w.lib = some lib) (hs : lib.supports = some supports)
    (hm : lib.setEnabled = true) (hq : "--query" ∉ argv.drop 1) :
    (supportsCalls (main argv w).trace).map Prod.fst = CGGetOnlineDisplayList 16 w.online ∧
    mutatorCalls (main argv w).trace =
      (supported (main argv w).trace).map
        (fun id => (id, decide ("--off" ∉ argv.drop 1))) ∧
    (mutatorCalls (main argv w).trace).length =
      ((supportsCalls (main argv w).trace).filter fun e => e.2).length ∧
    (∀ s : CGDirectDisplayID → Bool, (∀ h id, supports h id = s id) →
      mutatorCalls (main argv w).trace =
        ((CGGetOnlineDisplayList 16 w.online).filter s).map
          (fun id => (id, decide ("--off" ∉ argv.drop 1)))) := by
  have hq2 := parseArgs_not_query argv hq
  have hinv := loopExit_actInv supports lib.isEnabled (parseArgs argv).1 w.online
  have hcalls : mutatorCalls (main argv w).trace =
      (supported (main argv w).trace).map
        (fun id => (id, decide ("--off" ∉ argv.drop 1))) := by
    rw [main_act_mutatorCalls argv w lib supports hl hs hm hq2,
      main_act_supported argv w lib supports hl hs hm hq2, hinv.1, parseArgs_fst]
  refine ⟨?_, hcalls, ?_, ?_⟩
  · rw [main_act_supportsCalls argv w lib supports hl hs hm hq2,
      loopExit_supportsCalls_ids]
  · rw [hcalls, List.length_map, supported_length]
  · intro s hstat
    rw [hcalls, main_act_supported argv w lib supports hl hs hm hq2,
      loopExit_supported_stateless supports lib.isEnabled _ _ s hstat]

theorem mutator_calls_exact_witness :
    mutatorCalls (main ["set-dynamic-resolution"] scenarioWorld).trace = [(1, true)] ∧
      mutatorCalls (main ["set-dynamic-resolution", "--off"] scenarioWorld).trace =
        [(1, false)] :=
  ⟨(mutator_calls_exact ["set-dynamic-resolution"] scenarioWorld scenarioLib
      scenarioSupports rfl rfl rfl (by decide)).2.2.2 (fun id => decide (id = 1))
      (fun _ _ => rfl),
    (mutator_calls_exact ["set-dynamic-resolution", "--off"] scenarioWorld scenarioLib
      scenarioSupports rfl rfl rfl (by decide)).2.1⟩

/-- C3: when the library and both required symbols resolve, `main` exits with
status 1 exactly when no argument is `--query` and no call of the supports query
answered `true` (also when no display was enumerated); in that case the
no-displays warning is the one line written to standard error, and in every
other case the status is 0 and nothing is written to standard error. -/
theorem exit_status_exact (argv : List String) (w : World) (lib : SkyLight)
    (supports : Query) (hl : w.lib = some lib) (hs : lib.supports = some supports)
    (hm : lib.setEnabled = true) :
    ((main argv w).status = 1 ↔
      ("--query" ∉ argv.drop 1 ∧ ∀ e ∈ supportsCalls (main argv w).trace, e.2 = false)) ∧
    ((main argv w).status = 1 → stderrOf (main argv w).trace = [noDisplayWarning]) ∧
    ((main argv w).status ≠ 1 →
      (main argv w).status = 0 ∧ stderrOf (main argv w).trace = []) ∧
    (supportsCalls (main argv w).trace).map Prod.fst = CGGetOnlineDisplayList 16 w.online ∧
    (CGGetOnlineDisplayList 16 w.online = [] → "--query" ∉ argv.drop 1 →
      (main argv w).status = 1) := by
  by_cases hq : "--query" ∈ argv.drop 1
  · have hq2 := (parseArgs_query argv).2 hq
    have hmain := main_query argv w lib supports hl hs hm hq2
    have hst : (main argv w).status = 0 := by rw [hmain]
    have herr : stderrOf (main argv w).trace = [] := by
      rw [hmain]; exact loopExit_stderrOf _ _ _ _ _
    refine ⟨?_, ?_, ?_, ?_, ?_⟩
    · rw [hst]
      constructor
      · intro h; cases h
      · intro h; exact absurd hq h.1
    · rw [hst]; intro h; cases h
    · intro _; exact ⟨hst, herr⟩
    · rw [hmain]; exact loopExit_supportsCalls_ids _ _ _ _ _
    · intro _ hnq; exact absurd hq hnq
  · have hq2 := parseArgs_not_query argv hq
    have hst := main_act_status argv w lib supports hl hs hm hq2
    have herr := main_act_stderrOf argv w lib supports hl hs hm hq2
    have hsc := main_act_supportsCalls argv w lib supports hl hs hm hq2
    have hids : (supportsCalls (main argv w).trace).map Prod.fst =
        CGGetOnlineDisplayList 16 w.online := by
      rw [hsc, loopExit_supportsCalls_ids]
    have hiff : (main argv w).status = 1 ↔
        ("--query" ∉ argv.drop 1 ∧ ∀ e ∈ supportsCalls (main argv w).trace, e.2 = false) := by
      rw [hst, hsc, ← supported_eq_nil]
      by_cases hn : supported
          (loopExit supports lib.isEnabled (parseArgs argv).1 false w.online).1 = []
      · rw [if_pos hn]
        exact ⟨fun _ => ⟨hq, hn⟩, fun _ => rfl⟩
      · rw [if_neg hn]
        exact ⟨fun h => Nat.noConfusion h, fun h => absurd h.2 hn⟩
    refine ⟨hiff, ?_, ?_, hids, ?_⟩
    · intro h1
      rw [herr]
      rw [hst] at h1
      by_cases hn : supported
          (loopExit supports lib.isEnabled (parseArgs argv).1 false w.online).1 = []
      · simp [hn]
      · simp [hn] at h1
    · intro h1
      rw [herr, hst]
      rw [hst] at h1
      by_cases hn : supported
          (loopExit supports lib.isEnabled (parseArgs argv).1 false w.online).1 = []
      · simp [hn] at h1
      · simp [hn]
    · intro hnil _
      apply hiff.2
      refine ⟨hq, ?_⟩
      rw [hnil] at hids
      have hnone : supportsCalls (main argv w).trace = [] := List.map_eq_nil_iff.1 hids
      rw [hnone]
      intro e he
      cases he

theorem exit_status_exact_witness :
    (main ["set-dynamic-resolution", "--off"] noDisplaysWorld).status = 1 ∧
      stderrOf (main ["set-dynamic-resolution", "--off"] noDisplaysWorld).trace =
        [noDisplayWarning] ∧
      (main ["set-dynamic-resolution"] unsupportedWorld).status = 1 ∧
      (main ["set-dynamic-resolution"] scenarioWorld).status = 0 ∧
      stderrOf (main ["set-dynamic-resolution"] scenarioWorld).trace = [] :=
  ⟨(exit_status_exact ["set-dynamic-resolution", "--off"] noDisplaysWorld scenarioLib
      scenarioSupports rfl rfl rfl).2.2.2.2 rfl (by decide),
    (exit_status_exact ["set-dynamic-resolution", "--off"] noDisplaysWorld scenarioLib
      scenarioSupports rfl rfl rfl).2.1 (by decide),
    (exit_status_exact ["set-dynamic-resolution"] unsupportedWorld scenarioLib
      scenarioSupports rfl rfl rfl).1.2 (by decide),
    (exit_status_exact ["set-dynamic-resolution"] scenarioWorld scenarioLib
      scenarioSupports rfl rfl rfl).2.2.1 (by decide)⟩

/-- C4: the argument scan gives `enable = false` exactly when an argument after
the program name is `--off` and `query = true` exactly when one is `--query`.
Arguments other than these two change neither the mode nor the run, the program
name has no effect, near-misses are not recognised, and an argument list with
neither flag gives `enable = true`, `query = false`. -/
theorem parseArgs_exact (argv : List String) :
    ((parseArgs argv).1 = false ↔ "--off" ∈ argv.drop 1) ∧
    ((parseArgs argv).2 = true ↔ "--query" ∈ argv.drop 1) ∧
    parseArgs
        (argv.take 1 ++ (argv.drop 1).filter fun a => a = "--off" ∨ a = "--query") =
      parseArgs argv ∧
    (∀ w : World,
      main (argv.take 1 ++ (argv.drop 1).filter fun a => a = "--off" ∨ a = "--query") w =
        main argv w) ∧
    (∀ name : String, parseArgs (name :: argv.drop 1) = parseArgs argv) ∧
    ("--off" ∉ argv.drop 1 → "--query" ∉ argv.drop 1 → parseArgs argv = (true, false)) ∧
    parseArgs ["--off", "--OFF", "--off ", " --off", "-off", "--of", "off", "--QUERY",
      "--query ", "--query=1", "-q", "--help", ""] = (true, false) := by
  have hkeep : parseArgs
      (argv.take 1 ++ (argv.drop 1).filter fun a => a = "--off" ∨ a = "--query") =
      parseArgs argv := by
    rw [parseArgs_eq, parseArgs_eq]
    cases argv with
    | nil => simp
    | cons a rest => simp [List.mem_filter]
  refine ⟨parseArgs_enable argv, parseArgs_query argv, hkeep, ?_, ?_, ?_, by decide⟩
  · intro w
    exact main_same_mode _ _ w hkeep
  · intro name
    rw [parseArgs_eq, parseArgs_eq]
    simp
  · intro h1 h2
    rw [parseArgs_eq, decide_eq_true h1, decide_eq_false h2]

theorem parseArgs_exact_witness :
    parseArgs ["set-dynamic-resolution", "--verbose", "--OFF"] = (true, false) ∧
      ((parseArgs ["set-dynamic-resolution", "--query", "--off"]).1 = false ↔
        "--off" ∈ ["set-dynamic-resolution", "--query", "--off"].drop 1) :=
  ⟨(parseArgs_exact ["set-dynamic-resolution", "--verbose", "--OFF"]).2.2.2.2.2.1
      (by decide) (by decide),
    (parseArgs_exact ["set-dynamic-resolution", "--query", "--off"]).1⟩

/-- C5: when the library does not load, or loads without the supports symbol or
without the set-enabled symbol, `main` writes one diagnostic to standard error
and exits with status 1; it does not enumerate the displays, calls none of the
three SkyLight functions and writes nothing to standard output.  This holds for
every argument list. -/
theorem fatal_resolution_failure (argv : List String) (w : World)
    (h : w.lib = none ∨
      ∃ lib, w.lib = some lib ∧ (lib.supports = none ∨ lib.setEnabled = false)) :
    (main argv w).status = 1 ∧
    (w.lib = none → stderrOf (main argv w).trace = [loadError w.dlerrorText]) ∧
    (w.lib ≠ none → stderrOf (main argv w).trace = [symbolError]) ∧
    enumerations (main argv w).trace = 0 ∧
    supportsCalls (main argv w).trace = [] ∧
    isEnabledCalls (main argv w).trace = [] ∧
    mutatorCalls (main argv w).trace = [] ∧
    stdoutOf (main argv w).trace = [] := by
  rcases h with h | ⟨lib, hl, hm⟩
  · rw [main_load_failed argv w h]
    exact ⟨rfl, fun _ => rfl, fun hne => absurd h hne, rfl, rfl, rfl, rfl, rfl⟩
  · rw [main_symbols_missing argv w lib hl hm]
    refine ⟨rfl, fun hn => ?_, fun _ => rfl, rfl, rfl, rfl, rfl, rfl⟩
    rw [hl] at hn
    cases hn

theorem fatal_resolution_failure_witness :
    ((main ["set-dynamic-resolution", "--query"] noLibraryWorld).status = 1 ∧
      stderrOf (main ["set-dynamic-resolution", "--query"] noLibraryWorld).trace =
        ["ERROR: Could not load SkyLight framework: image not found\n"] ∧
      stdoutOf (main ["set-dynamic-resolution", "--query"] noLibraryWorld).trace = []) ∧
    ((main ["set-dynamic-resolution"] noMutatorWorld).status = 1 ∧
      stderrOf (main ["set-dynamic-resolution"] noMutatorWorld).trace = [symbolError] ∧
      supportsCalls (main ["set-dynamic-resolution"] noMutatorWorld).trace = [] ∧
      mutatorCalls (main ["set-dynamic-resolution"] noMutatorWorld).trace = []) :=
  ⟨⟨(fatal_resolution_failure ["set-dynamic-resolution", "--query"] noLibraryWorld
      (Or.inl rfl)).1,
    (fatal_resolution_failure ["set-dynamic-resolution", "--query"] noLibraryWorld
      (Or.inl rfl)).2.1 rfl,
    (fatal_resolution_failure ["set-dynamic-resolution", "--query"] noLibraryWorld
      (Or.inl rfl)).2.2.2.2.2.2.2⟩,
   ⟨(fatal_resolution_failure ["set-dynamic-resolution"] noMutatorWorld
      (Or.inr ⟨noMutatorLib, rfl, Or.inr rfl⟩)).1,
    (fatal_resolution_failure ["set-dynamic-resolution"] noMutatorWorld
      (Or.inr ⟨noMutatorLib, rfl, Or.inr rfl⟩)).2.2.1 (by simp [noMutatorWorld]),
    (fatal_resolution_failure ["set-dynamic-resolution"] noMutatorWorld
      (Or.inr ⟨noMutatorLib, rfl, Or.inr rfl⟩)).2.2.2.2.1,
    (fatal_resolution_failure ["set-dynamic-resolution"] noMutatorWorld
      (Or.inr ⟨noMutatorLib, rfl, Or.inr rfl⟩)).2.2.2.2.2.2.1⟩⟩

/-- C6: when the library and the two required symbols resolve and the
is-enabled symbol is absent, `main` goes on to enumerate the displays and runs
the loop without any is-enabled call.  In query mode every status line reports
`cur = false` and the status is 0; in enable and disable mode the mutator calls
and the status are those given by the supports answers.  The run shows the same
output, mutator calls and status as a run with an is-enabled query that always
answers `false` and the same supports answers, and when the supports query does
not look at is-enabled calls the two traces differ only by those calls. -/
theorem absent_isEnabled_reads_false (argv : List String) (w : World) (lib : SkyLight)
    (supports : Query) (hl : w.lib = some lib) (hs : lib.supports = some supports)
    (hm : lib.setEnabled = true) (hie : lib.isEnabled = none) :
    enumerations (main argv w).trace = 1 ∧
    (supportsCalls (main argv w).trace).map Prod.fst = CGGetOnlineDisplayList 16 w.online ∧
    isEnabledCalls (main argv w).trace = [] ∧
    ("--query" ∈ argv.drop 1 →
      stdoutOf (main argv w).trace =
        (supportsCalls (main argv w).trace).map (fun e => statusLine e.1 e.2 false) ∧
      stderrOf (main argv w).trace = [] ∧
      (main argv w).status = 0) ∧
    ("--query" ∉ argv.drop 1 →
      mutatorCalls (main argv w).trace =
        (supported (main argv w).trace).map
          (fun id => (id, decide ("--off" ∉ argv.drop 1))) ∧
      (main argv w).status = if supported (main argv w).trace = [] then 1 else 0) ∧
    (∀ (w2 : World) (lib2 : SkyLight) (f2 : Query), w2.lib = some lib2 →
      lib2.supports = some f2 → lib2.setEnabled = true →
      lib2.isEnabled = some (fun _ _ => false) →
      supportsCalls (main argv w2).trace = supportsCalls (main argv w).trace →
      stdoutOf (main argv w2).trace = stdoutOf (main argv w).trace ∧
      stderrOf (main argv w2).trace = stderrOf (main argv w).trace ∧
      mutatorCalls (main argv w2).trace = mutatorCalls (main argv w).trace ∧
      (main argv w2).status = (main argv w).status) ∧
    ((∀ h id, supports h id = supports (withoutIsEnabled h) id) →
      (main argv w).trace =
        withoutIsEnabled (main argv (withFalseIsEnabled w supports)).trace ∧
      (main argv w).status = (main argv (withFalseIsEnabled w supports)).status) := by
  have hcur : ∀ h id, curOf supports lib.isEnabled h id = false := by
    intro h id
    rw [hie]
    rfl
  have hres := main_resolved argv w lib supports hl hs hm
  have hen : enumerations (main argv w).trace = 1 := by
    rw [hres]
    split
    · simp only []
      rw [enumerations_append, loopExit_enumerations]
      rfl
    · exact loopExit_enumerations _ _ _ _ _
  have hids : (supportsCalls (main argv w).trace).map Prod.fst =
      CGGetOnlineDisplayList 16 w.online := by
    rw [hres]
    split
    · simp only []
      rw [supportsCalls_append, List.map_append, loopExit_supportsCalls_ids]
      simp [supportsCalls]
    · exact loopExit_supportsCalls_ids _ _ _ _ _
  have hnoie : isEnabledCalls (main argv w).trace = [] := by
    have h0 := loopExit_isEnabledCalls_ids supports lib.isEnabled (parseArgs argv).1
      (parseArgs argv).2 w.online
    rw [hie] at h0
    have h1 : isEnabledCalls (loopExit supports none (parseArgs argv).1
        (parseArgs argv).2 w.online).1 = [] := List.map_eq_nil_iff.1 h0
    rw [hres, hie]
    split
    · simp only []
      rw [isEnabledCalls_append, h1]
      rfl
    · exact h1
  refine ⟨hen, hids, hnoie, ?_, ?_, ?_, ?_⟩
  · intro hq
    have hq2 := (parseArgs_query argv).2 hq
    refine ⟨main_query_stdout_false argv w lib supports hl hs hm hq2 hcur, ?_, ?_⟩
    · rw [main_query argv w lib supports hl hs hm hq2]
      exact loopExit_stderrOf _ _ _ _ _
    · rw [main_query argv w lib supports hl hs hm hq2]
  · intro hq
    have hq2 := parseArgs_not_query argv hq
    refine ⟨?_, main_act_status_eq argv w lib supports hl hs hm hq2⟩
    rw [main_act_calls_eq argv w lib supports hl hs hm hq2, parseArgs_fst]
  · intro w2 lib2 f2 hl2 hs2 hm2 hie2 hsame
    by_cases hq : "--query" ∈ argv.drop 1
    · have hq2 := (parseArgs_query argv).2 hq
      have hcur2 : ∀ h id, curOf f2 lib2.isEnabled h id = false := by
        intro h id
        rw [hie2]
        rfl
      refine ⟨?_, ?_, ?_, ?_⟩
      · rw [main_query_stdout_false argv w2 lib2 f2 hl2 hs2 hm2 hq2 hcur2,
          main_query_stdout_false argv w lib supports hl hs hm hq2 hcur, hsame]
      · rw [main_query argv w2 lib2 f2 hl2 hs2 hm2 hq2,
          main_query argv w lib supports hl hs hm hq2]
        simp only []
        rw [loopExit_stderrOf, loopExit_stderrOf]
      · rw [main_query argv w2 lib2 f2 hl2 hs2 hm2 hq2,
          main_query argv w lib supports hl hs hm hq2]
        simp only []
        rw [(loopExit_queryInv f2 lib2.isEnabled (parseArgs argv).1 w2.online).1,
          (loopExit_queryInv supports lib.isEnabled (parseArgs argv).1 w.online).1]
      · rw [main_query argv w2 lib2 f2 hl2 hs2 hm2 hq2,
          main_query argv w lib supports hl hs hm hq2]
    · have hq2 := parseArgs_not_query argv hq
      have hd := main_act_determined argv w2 w lib2 lib f2 supports hl2 hs2 hm2 hl hs hm
        hq2 hsame
      exact ⟨hd.2.1, hd.2.2.1, hd.1, hd.2.2.2⟩
  · intro hins
    exact main_absent_erases argv w lib supports hl hs hm hie hins

theorem absent_isEnabled_reads_false_witness :
    (stdoutOf (main ["set-dynamic-resolution", "--query"] noIsEnabledWorld).trace =
        ["display 1: supportsDynamicGeometry=YES  isEnabled=NO\n",
         "display 2: supportsDynamicGeometry=NO  isEnabled=NO\n"] ∧
      stderrOf (main ["set-dynamic-resolution", "--query"] noIsEnabledWorld).trace = [] ∧
      (main ["set-dynamic-resolution", "--query"] noIsEnabledWorld).status = 0) ∧
    (mutatorCalls (main ["set-dynamic-resolution"] noIsEnabledWorld).trace = [(1, true)] ∧
      (main ["set-dynamic-resolution"] noIsEnabledWorld).status = 0) ∧
    stdoutOf (main ["set-dynamic-resolution", "--query"] scenarioWorld).trace =
      stdoutOf (main ["set-dynamic-resolution", "--query"] noIsEnabledWorld).trace ∧
    (main ["set-dynamic-resolution", "--off"] noIsEnabledWorld).trace =
      withoutIsEnabled (main ["set-dynamic-resolution", "--off"]
        (withFalseIsEnabled noIsEnabledWorld scenarioSupports)).trace :=
  ⟨(absent_isEnabled_reads_false ["set-dynamic-resolution", "--query"] noIsEnabledWorld
      noIsEnabledLib scenarioSupports rfl rfl rfl rfl).2.2.2.1 (by decide),
    (absent_isEnabled_reads_false ["set-dynamic-resolution"] noIsEnabledWorld
      noIsEnabledLib scenarioSupports rfl rfl rfl rfl).2.2.2.2.1 (by decide),
    ((absent_isEnabled_reads_false ["set-dynamic-resolution", "--query"] noIsEnabledWorld
      noIsEnabledLib scenarioSupports rfl rfl rfl rfl).2.2.2.2.2.1 scenarioWorld
      scenarioLib scenarioSupports rfl rfl rfl rfl (by decide)).1,
    ((absent_isEnabled_reads_false ["set-dynamic-resolution", "--off"] noIsEnabledWorld
      noIsEnabledLib scenarioSupports rfl rfl rfl rfl).2.2.2.2.2.2 (fun _ _ => rfl)).1⟩

/-- C7: in query mode, when the library and both required symbols resolve, the
supports query is asked once per enumerated display in enumeration order, and
standard output holds exactly one status line per enumerated display, in that
order, made of the display, the answer of the supports query and the value of
`cur` read for it.  Nothing is written to standard error and the status is 0,
whatever the number of displays and the answers are. -/
theorem query_mode_output_exact (argv : List String) (w : World) (lib : SkyLight)
    (supports : Query) (hl : w.lib = some lib) (hs : lib.supports = some supports)
    (hm : lib.setEnabled = true) (hq : "--query" ∈ argv.drop 1) :
    stdoutOf (main argv w).trace =
      List.zipWith (fun s c => statusLine s.1 s.2 c) (supportsCalls (main argv w).trace)
        (curValues lib.isEnabled (main argv w).trace) ∧
    (supportsCalls (main argv w).trace).map Prod.fst = CGGetOnlineDisplayList 16 w.online ∧
    (isEnabledCalls (main argv w).trace).map Prod.fst =
      (if lib.isEnabled.isSome then CGGetOnlineDisplayList 16 w.online else []) ∧
    (curValues lib.isEnabled (main argv w).trace).length =
      (CGGetOnlineDisplayList 16 w.online).length ∧
    (stdoutOf (main argv w).trace).length = (CGGetOnlineDisplayList 16 w.online).length ∧
    stderrOf (main argv w).trace = [] ∧
    (main argv w).status = 0 ∧
    (∀ s c : CGDirectDisplayID → Bool, (∀ h id, supports h id = s id) →
      (∀ f, lib.isEnabled = some f → ∀ h id, f h id = c id) →
      (lib.isEnabled = none → ∀ id, c id = false) →
      stdoutOf (main argv w).trace =
        (CGGetOnlineDisplayList 16 w.online).map fun id => statusLine id (s id) (c id)) ∧
    (∀ id sup cur, statusLine id sup cur =
      "display " ++ toString id ++ ": supportsDynamicGeometry=" ++
        (if sup then "YES" else "NO") ++ "  isEnabled=" ++
        (if cur then "YES" else "NO") ++ "\n") := by
  have hq2 := (parseArgs_query argv).2 hq
  have hmain := main_query argv w lib supports hl hs hm hq2
  have hout := main_query_stdout_eq argv w lib supports hl hs hm hq2
  have hlen := main_query_lengths argv w lib supports hl hs hm hq2
  have hids : (supportsCalls (main argv w).trace).map Prod.fst =
      CGGetOnlineDisplayList 16 w.online := by
    rw [hmain]; exact loopExit_supportsCalls_ids _ _ _ _ _
  have hn : (supportsCalls (main argv w).trace).length =
      (CGGetOnlineDisplayList 16 w.online).length := by
    rw [← hids, List.length_map]
  refine ⟨hout, hids, ?_, ?_, ?_, ?_, ?_, ?_, statusLine_text⟩
  · rw [hmain]; exact loopExit_isEnabledCalls_ids _ _ _ _ _
  · rw [← hlen, hn]
  · rw [hout, List.length_zipWith, ← hlen, hn, Nat.min_self]
  · rw [hmain]; exact loopExit_stderrOf _ _ _ _ _
  · rw [hmain]
  · intro s c hstat hc hc0
    have hcur := curOf_eq_of_table supports lib.isEnabled c hc hc0
    rw [hout, hmain]
    rw [loopExit_supportsCalls_stateless supports lib.isEnabled _ _ s hstat,
      loopExit_curValues_stateless supports lib.isEnabled _ _ c hcur, zipWith_status_map]

theorem query_mode_output_exact_witness :
    stdoutOf (main ["set-dynamic-resolution", "--query"] scenarioWorld).trace =
        ["display 1: supportsDynamicGeometry=YES  isEnabled=NO\n",
         "display 2: supportsDynamicGeometry=NO  isEnabled=NO\n"] ∧
      stderrOf (main ["set-dynamic-resolution", "--query"] scenarioWorld).trace = [] ∧
      (main ["set-dynamic-resolution", "--query"] scenarioWorld).status = 0 :=
  ⟨(query_mode_output_exact ["set-dynamic-resolution", "--query"] scenarioWorld
      scenarioLib scenarioSupports rfl rfl rfl (by decide)).2.2.2.2.2.2.2.1
      (fun id => decide (id = 1)) (fun _ => false) (fun _ _ => rfl)
      (fun f hf _ _ => by cases hf; rfl) (fun hn => by cases hn),
    (query_mode_output_exact ["set-dynamic-resolution", "--query"] scenarioWorld
      scenarioLib scenarioSupports rfl rfl rfl (by decide)).2.2.2.2.2.1,
    (query_mode_output_exact ["set-dynamic-resolution", "--query"] scenarioWorld
      scenarioLib scenarioSupports rfl rfl rfl (by decide)).2.2.2.2.2.2.1⟩

/-- C8: query mode wins over `--off`.  Two argument lists of which one has
`--query` and which are equal once every `--off` is taken out (so they differ
only in where and how often `--off` occurs) give the same run in every world:
the same trace of external calls and output, the same exit status, and no call
to the mutator. -/
theorem query_overrides_off (argv1 argv2 : List String) (w : World)
    (hq : "--query" ∈ argv1.drop 1)
    (hsame : (argv2.drop 1).filter (fun a => a ≠ "--off") =
      (argv1.drop 1).filter (fun a => a ≠ "--off")) :
    main argv2 w = main argv1 w ∧
    stdoutOf (main argv2 w).trace = stdoutOf (main argv1 w).trace ∧
    stderrOf (main argv2 w).trace = stderrOf (main argv1 w).trace ∧
    (main argv2 w).status = (main argv1 w).status ∧
    mutatorCalls (main argv2 w).trace = [] ∧
    mutatorCalls (main argv1 w).trace = [] := by
  have hmem : "--query" ∈ (argv1.drop 1).filter (fun a => a ≠ "--off") := by
    rw [List.mem_filter]
    exact ⟨hq, by decide⟩
  rw [← hsame, List.mem_filter] at hmem
  have hq1 := (parseArgs_query argv1).2 hq
  have hq2 := (parseArgs_query argv2).2 hmem.1
  have heq := main_query_mode argv2 argv1 w hq2 hq1
  have hnone : mutatorCalls (main argv1 w).trace = [] := by
    cases hl : w.lib with
    | none => rw [main_load_failed argv1 w hl]; rfl
    | some lib =>
      cases hs : lib.supports with
      | none => rw [main_symbols_missing argv1 w lib hl (Or.inl hs)]; rfl
      | some f =>
        cases hm : lib.setEnabled with
        | false => rw [main_symbols_missing argv1 w lib hl (Or.inr hm)]; rfl
        | true =>
          rw [main_query argv1 w lib f hl hs hm hq1]
          exact (loopExit_queryInv f lib.isEnabled (parseArgs argv1).1 w.online).1
  refine ⟨heq, ?_, ?_, ?_, ?_, hnone⟩
  · rw [heq]
  · rw [heq]
  · rw [heq]
  · rw [heq]; exact hnone

theorem query_overrides_off_witness :
    main ["set-dynamic-resolution", "--off", "--query", "--off"] scenarioWorld =
        main ["set-dynamic-resolution", "--query"] scenarioWorld ∧
      (main ["set-dynamic-resolution", "--query"] scenarioWorld).status = 0 :=
  ⟨(query_overrides_off ["set-dynamic-resolution", "--query"]
      ["set-dynamic-resolution", "--off", "--query", "--off"] scenarioWorld
      (by decide) (by decide)).1,
    by decide⟩

/-- C9: when the library and both required symbols resolve and no argument is
`--query`, the supports query is asked once per enumerated display, in
enumeration order, and standard output holds exactly one confirmation line per
display it answered `true` for, in that order, naming the display and `ON` when
`--off` is absent, `OFF` when it is present.  An iteration on an unsupported
display writes to neither stream, calls no mutator and leaves `acted` alone.
When the loop is left `acted` equals the number of confirmation lines and the
number of mutator calls; it is at most 16.  For a supports query given by a
fixed table `s` the lines and the calls are those of the enumerated displays
filtered by `s`, and `acted` is their number. -/
theorem act_mode_output_exact (argv : List String) (w : World) (lib : SkyLight)
    (supports : Query) (hl : w.lib = some lib) (hs : lib.supports = some supports)
    (hm : lib.setEnabled = true) (hq : "--query" ∉ argv.drop 1) :
    stdoutOf (main argv w).trace =
      (supported (main argv w).trace).map
        (fun id => confirmLine id (decide ("--off" ∉ argv.drop 1))) ∧
    mutatorCalls (main argv w).trace =
      (supported (main argv w).trace).map
        (fun id => (id, decide ("--off" ∉ argv.drop 1))) ∧
    (∀ id, confirmLine id true =
      "display " ++ toString id ++ ": dynamic geometry -> ON\n") ∧
    (∀ id, confirmLine id false =
      "display " ++ toString id ++ ": dynamic geometry -> OFF\n") ∧
    (∀ id st, supports st.1 id = false →
      stdoutOf (displayStep supports lib.isEnabled (parseArgs argv).1 (parseArgs argv).2
        id st).1 = stdoutOf st.1 ∧
      stderrOf (displayStep supports lib.isEnabled (parseArgs argv).1 (parseArgs argv).2
        id st).1 = stderrOf st.1 ∧
      mutatorCalls (displayStep supports lib.isEnabled (parseArgs argv).1
        (parseArgs argv).2 id st).1 = mutatorCalls st.1 ∧
      (displayStep supports lib.isEnabled (parseArgs argv).1 (parseArgs argv).2
        id st).2 = st.2) ∧
    (loopExit supports lib.isEnabled (parseArgs argv).1 (parseArgs argv).2 w.online).2 =
      (stdoutOf (main argv w).trace).length ∧
    (loopExit supports lib.isEnabled (parseArgs argv).1 (parseArgs argv).2 w.online).2 =
      (mutatorCalls (main argv w).trace).length ∧
    (loopExit supports lib.isEnabled (parseArgs argv).1 (parseArgs argv).2 w.online).2
      ≤ 16 ∧
    stderrOf
      (loopExit supports lib.isEnabled (parseArgs argv).1 (parseArgs argv).2 w.online).1
      = [] ∧
    (supportsCalls (main argv w).trace).map Prod.fst = CGGetOnlineDisplayList 16 w.online ∧
    (∀ s : CGDirectDisplayID → Bool, (∀ h id, supports h id = s id) →
      supportsCalls (main argv w).trace =
        (CGGetOnlineDisplayList 16 w.online).map (fun id => (id, s id)) ∧
      stdoutOf (main argv w).trace =
        ((CGGetOnlineDisplayList 16 w.online).filter s).map
          (fun id => confirmLine id (decide ("--off" ∉ argv.drop 1))) ∧
      mutatorCalls (main argv w).trace =
        ((CGGetOnlineDisplayList 16 w.online).filter s).map
          (fun id => (id, decide ("--off" ∉ argv.drop 1))) ∧
      (loopExit supports lib.isEnabled (parseArgs argv).1 (parseArgs argv).2 w.online).2 =
        ((CGGetOnlineDisplayList 16 w.online).filter s).length) := by
  have hq2 := parseArgs_not_query argv hq
  have hinv := loopExit_actInv supports lib.isEnabled (parseArgs argv).1 w.online
  have hsd := main_act_supported argv w lib supports hl hs hm hq2
  have hout : stdoutOf (main argv w).trace =
      (supported (main argv w).trace).map
        (fun id => confirmLine id (decide ("--off" ∉ argv.drop 1))) := by
    rw [main_act_stdoutOf argv w lib supports hl hs hm hq2, hsd, hinv.2.1, parseArgs_fst]
  have hcalls : mutatorCalls (main argv w).trace =
      (supported (main argv w).trace).map
        (fun id => (id, decide ("--off" ∉ argv.drop 1))) := by
    rw [main_act_mutatorCalls argv w lib supports hl hs hm hq2, hsd, hinv.1, parseArgs_fst]
  refine ⟨hout, hcalls, confirmLine_on, confirmLine_off, ?_, ?_, ?_, ?_, ?_, ?_, ?_⟩
  · intro id st hno
    rw [displayStep_stdoutOf, displayStep_stderrOf, displayStep_mutatorCalls,
      displayStep_acted, hq2, hno]
    simp
  · rw [hq2, hout, List.length_map, hsd]
    exact hinv.2.2
  · rw [hq2, hcalls, List.length_map, hsd]
    exact hinv.2.2
  · rw [hq2, hinv.2.2, supported_length]
    have h1 := List.length_filter_le (fun e : CGDirectDisplayID × Bool => e.2)
      (supportsCalls (loopExit supports lib.isEnabled (parseArgs argv).1 false w.online).1)
    have h2 := congrArg List.length
      (loopExit_supportsCalls_ids supports lib.isEnabled (parseArgs argv).1 false w.online)
    rw [List.length_map] at h2
    have h3 := CGGetOnlineDisplayList_length 16 w.online
    omega
  · exact loopExit_stderrOf _ _ _ _ _
  · rw [main_act_supportsCalls argv w lib supports hl hs hm hq2,
      loopExit_supportsCalls_ids]
  · intro s hstat
    have hsupp : supported (main argv w).trace =
        (CGGetOnlineDisplayList 16 w.online).filter s := by
      rw [hsd, loopExit_supported_stateless supports lib.isEnabled _ _ s hstat]
    refine ⟨?_, ?_, ?_, ?_⟩
    · rw [main_act_supportsCalls argv w lib supports hl hs hm hq2,
        loopExit_supportsCalls_stateless supports lib.isEnabled _ _ s hstat]
    · rw [hout, hsupp]
    · rw [hcalls, hsupp]
    · rw [hq2, hinv.2.2,
        loopExit_supported_stateless supports lib.isEnabled _ _ s hstat]

theorem act_mode_output_exact_witness :
    stdoutOf (main ["set-dynamic-resolution", "--off"] scenarioWorld).trace =
        ["display 1: dynamic geometry -> OFF\n"] ∧
      mutatorCalls (main ["set-dynamic-resolution", "--off"] scenarioWorld).trace =
        [(1, false)] ∧
      (supportsCalls (main ["set-dynamic-resolution", "--off"] scenarioWorld).trace).map
        Prod.fst = [1, 2] ∧
      stdoutOf (main ["set-dynamic-resolution"] threeSupportedWorld).trace =
        ["display 1: dynamic geometry -> ON\n", "display 2: dynamic geometry -> ON\n",
         "display 3: dynamic geometry -> ON\n"] ∧
      mutatorCalls (main ["set-dynamic-resolution"] threeSupportedWorld).trace =
        [(1, true), (2, true), (3, true)] ∧
      (loopExit allSupports allSupportedLib.isEnabled
        (parseArgs ["set-dynamic-resolution"]).1 (parseArgs ["set-dynamic-resolution"]).2
        threeSupportedWorld.online).2 = 3 :=
  ⟨(act_mode_output_exact ["set-dynamic-resolution", "--off"] scenarioWorld scenarioLib
      scenarioSupports rfl rfl rfl (by decide)).1,
    (act_mode_output_exact ["set-dynamic-resolution", "--off"] scenarioWorld scenarioLib
      scenarioSupports rfl rfl rfl (by decide)).2.1,
    (act_mode_output_exact ["set-dynamic-resolution", "--off"] scenarioWorld scenarioLib
      scenarioSupports rfl rfl rfl (by decide)).2.2.2.2.2.2.2.2.2.1,
    ((act_mode_output_exact ["set-dynamic-resolution"] threeSupportedWorld
      allSupportedLib allSupports rfl rfl rfl (by decide)).2.2.2.2.2.2.2.2.2.2
      (fun _ => true) (fun _ _ => rfl)).2.1,
    ((act_mode_output_exact ["set-dynamic-resolution"] threeSupportedWorld
      allSupportedLib allSupports rfl rfl rfl (by decide)).2.2.2.2.2.2.2.2.2.2
      (fun _ => true) (fun _ _ => rfl)).2.2.1,
    ((act_mode_output_exact ["set-dynamic-resolution"] threeSupportedWorld
      allSupportedLib allSupports rfl rfl rfl (by decide)).2.2.2.2.2.2.2.2.2.2
      (fun _ => true) (fun _ _ => rfl)).2.2.2⟩

/-- C10: in enable and disable mode the current state of a display has no
influence.  Two runs with the same arguments, none of them `--query`, in worlds
where the library and the required symbols resolve and the supports query is
asked about the same displays with the same answers, make the same mutator
calls, write the same standard output and standard error and exit with the same
status, whatever the is-enabled query answers or whether it is present.  The
supports query is asked once per enumerated display, in enumeration order, and
every display it answered `true` for gets a mutator call with the target value
and counts in `acted`, whatever its current state: for a supports query given by
a fixed table `s` and any is-enabled query, present or not, the mutator calls
are the enumerated displays filtered by `s`, each enumerated display with
`s id = true` gets its call, and `acted` is their number. -/
theorem current_state_ignored (argv : List String) (w1 w2 : World)
    (lib1 lib2 : SkyLight) (f1 f2 : Query) (hl1 : w1.lib = some lib1)
    (hs1 : lib1.supports = some f1) (hm1 : lib1.setEnabled = true)
    (hl2 : w2.lib = some lib2) (hs2 : lib2.supports = some f2)
    (hm2 : lib2.setEnabled = true) (hq : "--query" ∉ argv.drop 1) :
    (supportsCalls (main argv w1).trace = supportsCalls (main argv w2).trace →
      mutatorCalls (main argv w1).trace = mutatorCalls (main argv w2).trace ∧
      stdoutOf (main argv w1).trace = stdoutOf (main argv w2).trace ∧
      stderrOf (main argv w1).trace = stderrOf (main argv w2).trace ∧
      (main argv w1).status = (main argv w2).status) ∧
    (∀ s : CGDirectDisplayID → Bool, (∀ h id, f1 h id = s id) →
      (∀ h id, f2 h id = s id) →
      CGGetOnlineDisplayList 16 w1.online = CGGetOnlineDisplayList 16 w2.online →
      mutatorCalls (main argv w1).trace = mutatorCalls (main argv w2).trace ∧
      stdoutOf (main argv w1).trace = stdoutOf (main argv w2).trace ∧
      stderrOf (main argv w1).trace = stderrOf (main argv w2).trace ∧
      (main argv w1).status = (main argv w2).status) ∧
    (∀ e ∈ supportsCalls (main argv w1).trace, e.2 = true →
      (e.1, decide ("--off" ∉ argv.drop 1)) ∈ mutatorCalls (main argv w1).trace) ∧
    (loopExit f1 lib1.isEnabled (parseArgs argv).1 (parseArgs argv).2 w1.online).2 =
      ((supportsCalls (main argv w1).trace).filter fun e => e.2).length ∧
    (supportsCalls (main argv w1).trace).map Prod.fst =
      CGGetOnlineDisplayList 16 w1.online ∧
    (supportsCalls (main argv w2).trace).map Prod.fst =
      CGGetOnlineDisplayList 16 w2.online ∧
    (∀ s : CGDirectDisplayID → Bool, (∀ h id, f1 h id = s id) →
      supportsCalls (main argv w1).trace =
        (CGGetOnlineDisplayList 16 w1.online).map (fun id => (id, s id)) ∧
      mutatorCalls (main argv w1).trace =
        ((CGGetOnlineDisplayList 16 w1.online).filter s).map
          (fun id => (id, decide ("--off" ∉ argv.drop 1))) ∧
      (∀ id ∈ CGGetOnlineDisplayList 16 w1.online, s id = true →
        (id, decide ("--off" ∉ argv.drop 1)) ∈ mutatorCalls (main argv w1).trace) ∧
      (loopExit f1 lib1.isEnabled (parseArgs argv).1 (parseArgs argv).2 w1.online).2 =
        ((CGGetOnlineDisplayList 16 w1.online).filter s).length ∧
      (main argv w1).status =
        if (CGGetOnlineDisplayList 16 w1.online).filter s = [] then 1 else 0) := by
  have hq2 := parseArgs_not_query argv hq
  refine ⟨?_, ?_, ?_, ?_, ?_, ?_, ?_⟩
  · intro hsame
    exact main_act_determined argv w1 w2 lib1 lib2 f1 f2 hl1 hs1 hm1 hl2 hs2 hm2 hq2 hsame
  · intro s hst1 hst2 henum
    apply main_act_determined argv w1 w2 lib1 lib2 f1 f2 hl1 hs1 hm1 hl2 hs2 hm2 hq2
    rw [main_act_supportsCalls argv w1 lib1 f1 hl1 hs1 hm1 hq2,
      main_act_supportsCalls argv w2 lib2 f2 hl2 hs2 hm2 hq2,
      loopExit_supportsCalls_stateless f1 lib1.isEnabled _ _ s hst1,
      loopExit_supportsCalls_stateless f2 lib2.isEnabled _ _ s hst2, henum]
  · intro e he htrue
    rw [main_act_calls_eq argv w1 lib1 f1 hl1 hs1 hm1 hq2, parseArgs_fst, List.mem_map]
    refine ⟨e.1, ?_, rfl⟩
    unfold supported
    rw [List.mem_map]
    exact ⟨e, List.mem_filter.2 ⟨he, htrue⟩, rfl⟩
  · rw [hq2, (loopExit_actInv f1 lib1.isEnabled (parseArgs argv).1 w1.online).2.2,
      supported_length, main_act_supportsCalls argv w1 lib1 f1 hl1 hs1 hm1 hq2]
  · rw [main_act_supportsCalls argv w1 lib1 f1 hl1 hs1 hm1 hq2,
      loopExit_supportsCalls_ids]
  · rw [main_act_supportsCalls argv w2 lib2 f2 hl2 hs2 hm2 hq2,
      loopExit_supportsCalls_ids]
  · intro s hstat
    have hsupp : supported (main argv w1).trace =
        (CGGetOnlineDisplayList 16 w1.online).filter s := by
      rw [main_act_supported argv w1 lib1 f1 hl1 hs1 hm1 hq2,
        loopExit_supported_stateless f1 lib1.isEnabled _ _ s hstat]
    have hcalls : mutatorCalls (main argv w1).trace =
        ((CGGetOnlineDisplayList 16 w1.online).filter s).map
          (fun id => (id, decide ("--off" ∉ argv.drop 1))) := by
      rw [main_act_calls_eq argv w1 lib1 f1 hl1 hs1 hm1 hq2, parseArgs_fst, hsupp]
    refine ⟨?_, hcalls, ?_, ?_, ?_⟩
    · rw [main_act_supportsCalls argv w1 lib1 f1 hl1 hs1 hm1 hq2,
        loopExit_supportsCalls_stateless f1 lib1.isEnabled _ _ s hstat]
    · intro id hid hsid
      rw [hcalls, List.mem_map]
      exact ⟨id, List.mem_filter.2 ⟨hid, hsid⟩, rfl⟩
    · rw [hq2, (loopExit_actInv f1 lib1.isEnabled (parseArgs argv).1 w1.online).2.2,
        loopExit_supported_stateless f1 lib1.isEnabled _ _ s hstat]
    · rw [main_act_status_eq argv w1 lib1 f1 hl1 hs1 hm1 hq2, hsupp]

theorem current_state_ignored_witness :
    mutatorCalls (main ["set-dynamic-resolution"] alreadyOnWorld).trace =
        mutatorCalls (main ["set-dynamic-resolution"] noIsEnabledWorld).trace ∧
      stdoutOf (main ["set-dynamic-resolution"] alreadyOnWorld).trace =
        stdoutOf (main ["set-dynamic-resolution"] noIsEnabledWorld).trace ∧
      stderrOf (main ["set-dynamic-resolution"] alreadyOnWorld).trace =
        stderrOf (main ["set-dynamic-resolution"] noIsEnabledWorld).trace ∧
      (main ["set-dynamic-resolution"] alreadyOnWorld).status =
        (main ["set-dynamic-resolution"] noIsEnabledWorld).status ∧
      (1, true) ∈ mutatorCalls (main ["set-dynamic-resolution"] alreadyOnWorld).trace ∧
      mutatorCalls (main ["set-dynamic-resolution", "--off"] scenarioWorld).trace =
        mutatorCalls (main ["set-dynamic-resolution", "--off"] alreadyOnWorld).trace ∧
      (supportsCalls (main ["set-dynamic-resolution"] alreadyOnReversedWorld).trace).map
        Prod.fst = [2, 1] ∧
      mutatorCalls (main ["set-dynamic-resolution"] alreadyOnReversedWorld).trace =
        [(1, true)] ∧
      (main ["set-dynamic-resolution"] alreadyOnReversedWorld).status = 0 ∧
      (loopExit scenarioSupports alreadyOnLib.isEnabled
        (parseArgs ["set-dynamic-resolution"]).1 (parseArgs ["set-dynamic-resolution"]).2
        alreadyOnReversedWorld.online).2 = 1 :=
  ⟨((current_state_ignored ["set-dynamic-resolution"] alreadyOnWorld noIsEnabledWorld
      alreadyOnLib noIsEnabledLib scenarioSupports scenarioSupports rfl rfl rfl rfl rfl
      rfl (by decide)).1 (by decide)).1,
    ((current_state_ignored ["set-dynamic-resolution"] alreadyOnWorld noIsEnabledWorld
      alreadyOnLib noIsEnabledLib scenarioSupports scenarioSupports rfl rfl rfl rfl rfl
      rfl (by decide)).1 (by decide)).2.1,
    ((current_state_ignored ["set-dynamic-resolution"] alreadyOnWorld noIsEnabledWorld
      alreadyOnLib noIsEnabledLib scenarioSupports scenarioSupports rfl rfl rfl rfl rfl
      rfl (by decide)).1 (by decide)).2.2.1,
    ((current_state_ignored ["set-dynamic-resolution"] alreadyOnWorld noIsEnabledWorld
      alreadyOnLib noIsEnabledLib scenarioSupports scenarioSupports rfl rfl rfl rfl rfl
      rfl (by decide)).1 (by decide)).2.2.2,
    (current_state_ignored ["set-dynamic-resolution"] alreadyOnWorld noIsEnabledWorld
      alreadyOnLib noIsEnabledLib scenarioSupports scenarioSupports rfl rfl rfl rfl rfl
      rfl (by decide)).2.2.1 (1, true) (by decide) rfl,
    ((current_state_ignored ["set-dynamic-resolution", "--off"] scenarioWorld
      alreadyOnWorld scenarioLib alreadyOnLib scenarioSupports scenarioSupports rfl rfl
      rfl rfl rfl rfl (by decide)).2.1 (fun id => decide (id = 1)) (fun _ _ => rfl)
      (fun _ _ => rfl) rfl).1,
    (current_state_ignored ["set-dynamic-resolution"] alreadyOnReversedWorld
      alreadyOnWorld alreadyOnLib alreadyOnLib scenarioSupports scenarioSupports rfl rfl
      rfl rfl rfl rfl (by decide)).2.2.2.2.1,
    ((current_state_ignored ["set-dynamic-resolution"] alreadyOnReversedWorld
      alreadyOnWorld alreadyOnLib alreadyOnLib scenarioSupports scenarioSupports rfl rfl
      rfl rfl rfl rfl (by decide)).2.2.2.2.2.2 (fun id => decide (id = 1))
      (fun _ _ => rfl)).2.1,
    ((current_state_ignored ["set-dynamic-resolution"] alreadyOnReversedWorld
      alreadyOnWorld alreadyOnLib alreadyOnLib scenarioSupports scenarioSupports rfl rfl
      rfl rfl rfl rfl (by decide)).2.2.2.2.2.2 (fun id => decide (id = 1))
      (fun _ _ => rfl)).2.2.2.2,
    ((current_state_ignored ["set-dynamic-resolution"] alreadyOnReversedWorld
      alreadyOnWorld alreadyOnLib alreadyOnLib scenarioSupports scenarioSupports rfl rfl
      rfl rfl rfl rfl (by decide)).2.2.2.2.2.2 (fun id => decide (id = 1))
      (fun _ _ => rfl)).2.2.2.1⟩

end SetDynamicResolution
